import Mathlib

/-!
Verification of the golden-codex-api gateway against its specification.

The definitions below are a shallow embedding of the Python sources:
  * `src/gateway/app/config.py`            → `Settings`, `settings`
  * `src/gateway/app/models/schemas.py`    → `Operation`, `JobStatus`, option records
  * `src/gateway/app/services/tokens.py`   → `calculate_cost`, `check_balance`,
                                             `deduct_tokens`, `refund_tokens`
  * `src/gateway/app/services/jobs.py`     → `create_job`, `cancel_job`,
                                             `trigger_pipeline` (with `runNova` /
                                             `runFlux` / `runAtlas` for the try-block)
  * `src/gateway/app/services/rate_limit.py` → `check_rate_limit`
  * `src/gateway/app/routers/jobs.py`      → `create_job_endpoint_cost`
  * `src/sdks/python/golden_codex/webhooks.py` → `verify_webhook_signature`,
                                             `generate_webhook_signature`

Firestore is modelled as an explicit state (`DB`): a map from user id to the
user document, a per-user append-only transaction list, and the list of job
documents.  Python integers are `Int`; timestamps are `Nat` instants passed
explicitly where the code calls `datetime.utcnow()` / `time.time()`.
External HTTP calls are modelled by outcome parameters (`PipelineEnv`) and a
log of the calls and webhooks performed (`PipelineLog`).
-/

set_option autoImplicit false

namespace GoldenCodex

/-- Enhancement operations (`Operation` in `schemas.py`). -/
inductive Operation where
  | nova
  | flux
  | atlas
deriving DecidableEq, Repr

/-- Job status values (`JobStatus` in `schemas.py`). -/
inductive JobStatus where
  | pending
  | processing
  | completed
  | failed
  | cancelled
deriving DecidableEq, Repr

/-- Options for Nova analysis; `tier` is `"standard"` or `"full_gcx"`. -/
structure NovaOptions where
  tier : String := "standard"
deriving DecidableEq, Repr

/-- Options for Flux upscaling; `model` is `"2x"`, `"4x"`, `"anime"` or `"photo"`. -/
structure FluxOptions where
  model : String := "4x"
deriving DecidableEq, Repr

/-- Options for Atlas infusion; `format` is `"png"`, `"jpg"` or `"webp"`. -/
structure AtlasOptions where
  format : String := "png"
deriving DecidableEq, Repr

/-- Combined options for all operations (`OperationOptions` in `schemas.py`). -/
structure OperationOptions where
  nova : Option NovaOptions := none
  flux : Option FluxOptions := none
  atlas : Option AtlasOptions := none
deriving DecidableEq, Repr

/-- The token-cost fields of `Settings` in `config.py` (default values). -/
structure Settings where
  cost_nova_standard : Int := 1
  cost_nova_full : Int := 2
  cost_flux_2x : Int := 1
  cost_flux_4x : Int := 2
  cost_atlas : Int := 1
deriving Repr

/-- `get_settings()` returns the defaults (no environment overrides modelled). -/
def settings : Settings := {}

/-- One entry of the breakdown dict returned by `calculate_cost`:
`{"cost": c, "tier": t}` for nova, `{"cost": c, "model": m}` for flux,
`{"cost": c}` for atlas. -/
structure BreakdownItem where
  cost : Int
  tier : Option String := none
  model : Option String := none
deriving DecidableEq, Repr

/-- `calculate_cost` from `services/tokens.py`: the total cost and the
per-stage breakdown, computed purely from operations and options. -/
def calculate_cost (operations : List Operation) (options : Option OperationOptions) :
    Int × List (String × BreakdownItem) :=
  let options := options.getD {}
  let total : Int := 0
  let breakdown : List (String × BreakdownItem) := []
  let (total, breakdown) :=
    if Operation.nova ∈ operations then
      let tier := match options.nova with
        | some novaOpts => novaOpts.tier
        | none => "standard"
      let cost := if tier = "full_gcx" then settings.cost_nova_full
                  else settings.cost_nova_standard
      (total + cost, breakdown ++ [("nova", { cost := cost, tier := some tier })])
    else (total, breakdown)
  let (total, breakdown) :=
    if Operation.flux ∈ operations then
      let model := match options.flux with
        | some fluxOpts => fluxOpts.model
        | none => "4x"
      let cost := if model = "4x" ∨ model = "anime" ∨ model = "photo" then settings.cost_flux_4x
                  else settings.cost_flux_2x
      (total + cost, breakdown ++ [("flux", { cost := cost, model := some model })])
    else (total, breakdown)
  let (total, breakdown) :=
    if Operation.atlas ∈ operations then
      (total + settings.cost_atlas, breakdown ++ [("atlas", { cost := settings.cost_atlas })])
    else (total, breakdown)
  (total, breakdown)

/-- The cost `calculate_cost` assigns to the nova stage for a given options set. -/
def novaCost (options : Option OperationOptions) : Int :=
  let tier := match (options.getD {}).nova with
    | some novaOpts => novaOpts.tier
    | none => "standard"
  if tier = "full_gcx" then settings.cost_nova_full else settings.cost_nova_standard

/-- The cost `calculate_cost` assigns to the flux stage for a given model choice. -/
def fluxModelCost (model : String) : Int :=
  if model = "4x" ∨ model = "anime" ∨ model = "photo" then settings.cost_flux_4x
  else settings.cost_flux_2x

/-- The four admissible flux model choices (`FluxOptions.model` literal in
`schemas.py`). -/
def fluxModels : List String := ["2x", "4x", "anime", "photo"]

/-! ## Firestore state model -/

/-- The user document: `tokens.balance`, the legacy `credits_available`
field, and `tokens.totalSpent`. -/
structure UserDoc where
  balance : Int
  creditsAvailable : Int := 0
  totalSpent : Int := 0
deriving DecidableEq, Repr

/-- Transaction type of a `tokenTransactions` record. -/
inductive TxType where
  | deduction
  | refund
deriving DecidableEq, Repr

/-- A `tokenTransactions` record (append-only audit trail). -/
structure TxRecord where
  type : TxType
  amount : Int
  reason : String
  jobId : String
  balanceAfter : Int
deriving DecidableEq, Repr

/-- The `cost` sub-document of a job. -/
structure JobCostDoc where
  estimated : Int
  charged : Int
  refunded : Int
deriving DecidableEq, Repr

/-- The `progress` sub-document of a job: one optional status per stage
(`None` when the stage was not requested). -/
structure ProgressDoc where
  nova : Option JobStatus := none
  flux : Option JobStatus := none
  atlas : Option JobStatus := none
deriving DecidableEq, Repr

/-- The structured `error` value written on pipeline failure. -/
structure ErrorDoc where
  code : String
  message : String
  retryable : Bool
deriving DecidableEq, Repr

/-- The `results` dict accumulated by the pipeline: `golden_codex` payload
(kept opaque as a string) and the `urls` sub-dict. -/
structure ResultsDoc where
  goldenCodex : Option String := none
  urlOriginal : Option String := none
  urlUpscaled : Option String := none
  urlFinal : Option String := none
deriving DecidableEq, Repr

/-- An `api_jobs` document. -/
structure JobDoc where
  jobId : String
  userId : String
  apiKeyId : String := ""
  requestId : Option String := none
  status : JobStatus
  imageUrl : String := ""
  operations : List Operation := []
  webhookUrl : Option String := none
  cost : JobCostDoc
  progress : ProgressDoc := {}
  results : Option ResultsDoc := none
  error : Option ErrorDoc := none
  createdAt : Nat := 0
  startedAt : Option Nat := none
  completedAt : Option Nat := none
deriving DecidableEq, Repr

/-- The Firestore state touched by the services under verification. -/
structure DB where
  users : String → Option UserDoc
  txs : String → List TxRecord
  jobs : List JobDoc

/-- Point update of the user document map. -/
def DB.setUser (db : DB) (userId : String) (u : UserDoc) : DB :=
  { db with users := fun k => if k = userId then some u else db.users k }

/-- Append a transaction record to a user's `tokenTransactions`. -/
def DB.appendTx (db : DB) (userId : String) (tx : TxRecord) : DB :=
  { db with txs := fun k => if k = userId then db.txs k ++ [tx] else db.txs k }

/-- `db.collection("api_jobs").document(jobId).get()`: first job with that id. -/
def DB.findJob (db : DB) (jobId : String) : Option JobDoc :=
  db.jobs.find? (fun j => j.jobId == jobId)

/-- `job_ref.update(...)`: rewrite the documents with the given id in place
(a no-op when the document is absent). -/
def DB.updateJob (db : DB) (jobId : String) (f : JobDoc → JobDoc) : DB :=
  { db with jobs := db.jobs.map (fun j => if j.jobId == jobId then f j else j) }

/-- `document(jobId).set(jobData)`: replace the document if present,
create it otherwise. -/
def DB.setJob (db : DB) (jobData : JobDoc) : DB :=
  if (db.jobs.find? (fun j => j.jobId == jobData.jobId)).isSome then
    db.updateJob jobData.jobId (fun _ => jobData)
  else
    { db with jobs := db.jobs ++ [jobData] }

/-! ## Token service (`services/tokens.py`) -/

/-- `check_balance` from `services/tokens.py`: `(has_sufficient, balance)`,
falling back to the legacy `credits_available` field when `tokens.balance`
is zero. -/
def check_balance (db : DB) (userId : String) (required : Int) : Bool × Int :=
  match db.users userId with
  | none => (false, 0)
  | some u =>
    let balance := u.balance
    let balance := if balance = 0 then u.creditsAvailable else balance
    (balance ≥ required, balance)

/-- The errors `deduct_tokens` raises (as `HTTPException` 402 payloads). -/
inductive DeductError where
  | userNotFound
  | insufficientCredits (balance required : Int)
deriving DecidableEq, Repr

/-- `deduct_tokens` from `services/tokens.py`.  Runs in a Firestore
transaction: an exception aborts with no mutation, which the model renders
by returning the state unchanged alongside the error.  On success the new
balance is written to `tokens.balance`, `tokens.totalSpent` is incremented,
and a `deduction` record is appended. -/
def deduct_tokens (db : DB) (userId : String) (amount : Int) (reason jobId : String) :
    DB × Except DeductError Int :=
  match db.users userId with
  | none => (db, .error .userNotFound)
  | some u =>
    let currentBalance := u.balance
    let currentBalance := if currentBalance = 0 then u.creditsAvailable else currentBalance
    if currentBalance < amount then
      (db, .error (.insufficientCredits currentBalance amount))
    else
      let newBalance := currentBalance - amount
      let db := db.setUser userId
        { u with balance := newBalance, totalSpent := u.totalSpent + amount }
      let db := db.appendTx userId
        { type := .deduction, amount := amount, reason := reason,
          jobId := jobId, balanceAfter := newBalance }
      (db, .ok newBalance)

/-- `refund_tokens` from `services/tokens.py`.  Returns 0 with no mutation
when the user document is absent; otherwise adds `amount` to
`tokens.balance` (no `credits_available` fallback here), decrements
`tokens.totalSpent` and appends a `refund` record. -/
def refund_tokens (db : DB) (userId : String) (amount : Int) (reason jobId : String) :
    DB × Int :=
  match db.users userId with
  | none => (db, 0)
  | some u =>
    let newBalance := u.balance + amount
    let db := db.setUser userId
      { u with balance := newBalance, totalSpent := u.totalSpent - amount }
    let db := db.appendTx userId
      { type := .refund, amount := amount, reason := reason,
        jobId := jobId, balanceAfter := newBalance }
    (db, newBalance)

/-! ## Job service (`services/jobs.py`)

External providers are modelled by their outcomes: each stage call either
returns a parsed response body or raises (`httpx` error, timeout, or
`raise_for_status`), which `Except String` captures.  The request payloads
sent to the providers are not observable in any claim and are not recorded;
the log keeps which stages were called and which webhooks were dispatched. -/

/-- Outcomes of the three external provider calls for one pipeline run. -/
structure PipelineEnv where
  /-- `nova_response`: the `golden_codex` payload (opaque) or an exception. -/
  nova : Except String String
  /-- `flux_response`: the optional `upscaled_image_url` or an exception. -/
  flux : Except String (Option String)
  /-- `atlas_response`: the optional `final_url` or an exception. -/
  atlas : Except String (Option String)

/-- Log of the externally visible effects of a pipeline run. -/
structure PipelineLog where
  /-- Provider calls actually issued, in order. -/
  calls : List Operation := []
  /-- Webhooks dispatched: `(event, job_id)` pairs. -/
  webhooks : List (String × String) := []
deriving DecidableEq, Repr

/-- The Atlas step of the try-block in `trigger_pipeline`. -/
def runAtlas (db : DB) (env : PipelineEnv) (jobId : String) (calls : List Operation)
    (results : ResultsDoc) (operations : List Operation) :
    DB × List Operation × Except String ResultsDoc :=
  if Operation.atlas ∈ operations then
    let db := db.updateJob jobId
      (fun j => { j with progress := { j.progress with atlas := some .processing } })
    let calls := calls ++ [Operation.atlas]
    match env.atlas with
    | .error e => (db, calls, .error e)
    | .ok finalUrl =>
      let results := match finalUrl with
        | some f => { results with urlFinal := some f }
        | none => results
      let db := db.updateJob jobId
        (fun j => { j with progress := { j.progress with atlas := some .completed } })
      (db, calls, .ok results)
  else (db, calls, .ok results)

/-- The Flux step of the try-block in `trigger_pipeline` (continues with
Atlas on success or when Flux was not requested). -/
def runFlux (db : DB) (env : PipelineEnv) (jobId : String) (calls : List Operation)
    (results : ResultsDoc) (operations : List Operation) :
    DB × List Operation × Except String ResultsDoc :=
  if Operation.flux ∈ operations then
    let db := db.updateJob jobId
      (fun j => { j with progress := { j.progress with flux := some .processing } })
    let calls := calls ++ [Operation.flux]
    match env.flux with
    | .error e => (db, calls, .error e)
    | .ok upscaledUrl =>
      let results := match upscaledUrl with
        | some u => { results with urlUpscaled := some u }
        | none => results
      let db := db.updateJob jobId
        (fun j => { j with progress := { j.progress with flux := some .completed } })
      runAtlas db env jobId calls results operations
  else runAtlas db env jobId calls results operations

/-- The Nova step of the try-block in `trigger_pipeline` (continues with
Flux on success or when Nova was not requested). -/
def runNova (db : DB) (env : PipelineEnv) (jobId imageUrl : String)
    (operations : List Operation) :
    DB × List Operation × Except String ResultsDoc :=
  let results : ResultsDoc := { urlOriginal := some imageUrl }
  if Operation.nova ∈ operations then
    let db := db.updateJob jobId
      (fun j => { j with progress := { j.progress with nova := some .processing } })
    let calls := [Operation.nova]
    match env.nova with
    | .error e => (db, calls, .error e)
    | .ok goldenCodex =>
      let results := { results with goldenCodex := some goldenCodex }
      let db := db.updateJob jobId
        (fun j => { j with progress := { j.progress with nova := some .completed } })
      runFlux db env jobId calls results operations
  else runFlux db env jobId [] results operations

/-- `trigger_pipeline` from `services/jobs.py`: mark PROCESSING, run the
requested stages in order, then either mark COMPLETED with results or catch
the fault, mark FAILED with a structured retryable error, refund the full
charge, and dispatch the matching webhook if one is configured.  The Python
`except Exception` block is total over stage faults, so the model is a
total function. -/
def trigger_pipeline (db : DB) (env : PipelineEnv) (jobId imageUrl : String)
    (operations : List Operation) (userId : String) (now : Nat) :
    DB × PipelineLog :=
  let db := db.updateJob jobId
    (fun j => { j with status := .processing, startedAt := some now })
  match runNova db env jobId imageUrl operations with
  | (db, calls, .ok results) =>
    let db := db.updateJob jobId
      (fun j => { j with status := .completed, results := some results,
                         completedAt := some now })
    match db.findJob jobId with
    | none => (db, { calls := calls })
    | some jobData =>
      if jobData.webhookUrl.isSome then
        (db, { calls := calls, webhooks := [("job.completed", jobId)] })
      else
        (db, { calls := calls })
  | (db, calls, .error msg) =>
    let errorData : ErrorDoc := { code := "pipeline_error", message := msg, retryable := true }
    let db := db.updateJob jobId
      (fun j => { j with status := .failed, error := some errorData,
                         completedAt := some now })
    match db.findJob jobId with
    | none => (db, { calls := calls })
    | some jobData =>
      let cost := jobData.cost.charged
      let db :=
        if cost > 0 then
          let (db, _) := refund_tokens db userId cost "job_failed" jobId
          db.updateJob jobId (fun j => { j with cost := { j.cost with refunded := cost } })
        else db
      if jobData.webhookUrl.isSome then
        (db, { calls := calls, webhooks := [("job.failed", jobId)] })
      else
        (db, { calls := calls })

/-- The idempotency query of `create_job`: the first job stored for
`(user_id, request_id)`. -/
def idempotencyLookup (db : DB) (userId : String) (requestId : Option String) :
    Option JobDoc :=
  match requestId with
  | some rid => db.jobs.find? (fun j => j.userId == userId && j.requestId == some rid)
  | none => none

/-- The response dict built by `create_job`; the `cost` sub-dict is kept as
a literal key-value list because the router looks it up by key. -/
structure CreateResp where
  jobId : String
  status : JobStatus
  operations : List Operation
  cost : List (String × Int)
  message : Option String := none
deriving DecidableEq, Repr

/-- `create_job` from `services/jobs.py`: compute the cost, consult the
idempotency index on `(user_id, request_id)`, deduct tokens, persist the
PENDING job, run the pipeline, and return the response dict.  `newJobId`
stands for `generate_job_id()` and `now` for `datetime.utcnow()`. -/
def create_job (db : DB) (env : PipelineEnv) (userId apiKeyId imageUrl : String)
    (operations : List Operation) (options : Option OperationOptions)
    (webhookUrl : Option String) (requestId : Option String)
    (newJobId : String) (now : Nat) :
    DB × PipelineLog × Except DeductError CreateResp :=
  let (totalCost, _breakdown) := calculate_cost operations options
  match idempotencyLookup db userId requestId with
  | some existingJob =>
    (db, {}, .ok {
      jobId := existingJob.jobId,
      status := existingJob.status,
      operations := existingJob.operations,
      cost := [("estimated_aet", existingJob.cost.estimated)],
      message := some "Job already created for this request_id" })
  | none =>
    match deduct_tokens db userId totalCost "api_job" newJobId with
    | (db, .error e) => (db, {}, .error e)
    | (db, .ok _newBalance) =>
      let jobData : JobDoc := {
        jobId := newJobId,
        userId := userId,
        apiKeyId := apiKeyId,
        requestId := requestId,
        status := .pending,
        imageUrl := imageUrl,
        operations := operations,
        webhookUrl := webhookUrl,
        cost := { estimated := totalCost, charged := totalCost, refunded := 0 },
        progress := {
          nova := if Operation.nova ∈ operations then some .pending else none,
          flux := if Operation.flux ∈ operations then some .pending else none,
          atlas := if Operation.atlas ∈ operations then some .pending else none },
        createdAt := now }
      let db := db.setJob jobData
      let (db, log) := trigger_pipeline db env newJobId imageUrl operations userId now
      (db, log, .ok {
        jobId := newJobId,
        status := .pending,
        operations := operations,
        cost := [("estimated_aet", totalCost)] })

/-- `cancel_job` from `services/jobs.py`: cancel a PENDING job owned by the
caller; refund the charge and record it; `False` otherwise with no effect. -/
def cancel_job (db : DB) (jobId userId : String) (now : Nat) : DB × Bool :=
  match db.findJob jobId with
  | none => (db, false)
  | some jobData =>
    if jobData.userId ≠ userId then (db, false)
    else if jobData.status ≠ JobStatus.pending then (db, false)
    else
      let db := db.updateJob jobId
        (fun j => { j with status := .cancelled, completedAt := some now })
      let cost := jobData.cost.charged
      if cost > 0 then
        let (db, _) := refund_tokens db userId cost "job_cancelled" jobId
        let db := db.updateJob jobId
          (fun j => { j with cost := { j.cost with refunded := cost } })
        (db, true)
      else (db, true)

/-- The cost lookup `result["cost"]["estimated_gcx"]` performed by
`create_job_endpoint` in `routers/jobs.py` on the service's response;
`none` models the `KeyError` raised when the key is absent. -/
def create_job_endpoint_cost (resp : CreateResp) : Option Int :=
  resp.cost.lookup "estimated_gcx"

/-! ## Rate limiter (`services/rate_limit.py`) -/

/-- `RateLimitWindow`: count and window start for one key. -/
structure RateLimitWindow where
  count : Nat := 0
  windowStart : Nat := 0
deriving DecidableEq, Repr

/-- The process-local `_rate_limits` dict. -/
def RLState := String → Option RateLimitWindow

/-- The `RateLimited` error payload (`retry_after`, `limit`, and the
`X-RateLimit-Remaining` header value, always 0). -/
structure RateLimitedError where
  retryAfter : Int
  limit : Nat
  remaining : Nat
deriving DecidableEq, Repr

/-- `check_rate_limit` from `services/rate_limit.py` for a given key and
tier limit, at Unix time `now`: lazily reset the fixed 60-second window,
increment its counter (also on the failing call), and fail with
`RateLimited` when the counter exceeds the limit.  On success it returns
`(limit, remaining, reset_timestamp)`. -/
def check_rate_limit (st : RLState) (key : String) (limit : Nat) (now : Nat) :
    RLState × Except RateLimitedError (Nat × Nat × Nat) :=
  let windowStart := (now / 60) * 60
  let windowReset := windowStart + 60
  let window : RateLimitWindow := match st key with
    | some w => if w.windowStart = windowStart then w else { count := 0, windowStart }
    | none => { count := 0, windowStart }
  let window := { window with count := window.count + 1 }
  let st' : RLState := fun k => if k = key then some window else st k
  let remaining := limit - window.count
  if window.count > limit then
    (st', .error { retryAfter := (windowReset : Int) - (now : Int), limit := limit, remaining := 0 })
  else
    (st', .ok (limit, remaining, windowReset))

/-- Iterated `check_rate_limit` calls on one key at the given instants,
collecting each call's outcome. -/
def checkCalls (st : RLState) (key : String) (limit : Nat) :
    List Nat → RLState × List (Except RateLimitedError (Nat × Nat × Nat))
  | [] => (st, [])
  | now :: rest =>
    let (st, r) := check_rate_limit st key limit now
    let (st, rs) := checkCalls st key limit rest
    (st, r :: rs)

/-- The counter the limiter would read for `key` in the window starting at
`W`: the stored count when the stored window is current, 0 otherwise. -/
def startCount (st : RLState) (key : String) (W : Nat) : Nat :=
  match st key with
  | some w => if w.windowStart = W then w.count else 0
  | none => 0

/-! ## Webhook signatures (`sdks/python/golden_codex/webhooks.py`)

Strings are handled as `List Char`.  The HMAC-SHA256 hex digest computed by
`hmac.new(secret, msg, sha256).hexdigest()` is abstracted as a parameter
`mac : secret → message → digest`: it is a pure function of its two inputs,
which is the only property of the digest the signing scheme's control flow
uses.  Facts specific to hex digests (non-empty, no `,` character) and to
collision resistance enter the theorems as explicit hypotheses. -/

/-- `str.split(sep)` for a one-character separator. -/
def splitOnChar (c : Char) : List Char → List (List Char)
  | [] => [[]]
  | a :: rest =>
    let r := splitOnChar c rest
    if a = c then [] :: r
    else match r with
      | [] => [[a]]
      | x :: xs => (a :: x) :: xs

/-- `part.split("=", 1)` guarded by `"=" in part`: the text before the first
`=` and everything after it, or `none` when there is no `=`. -/
def splitFirstEq : List Char → Option (List Char × List Char)
  | [] => none
  | a :: rest =>
    if a = '=' then some ([], rest)
    else match splitFirstEq rest with
      | none => none
      | some (k, v) => some (a :: k, v)

/-- The `parts` dict built by the parsing loop of `verify_webhook_signature`,
as the key/value pairs in insertion order. -/
def parseSigParts (signature : List Char) : List (List Char × List Char) :=
  (splitOnChar ',' signature).foldl
    (fun acc part =>
      match splitFirstEq part with
      | none => acc
      | some (k, v) => acc ++ [(k, v)])
    []

/-- `parts.get(key)`: dict semantics, so the last binding of a key wins. -/
def lookupPart (key : List Char) : List (List Char × List Char) → Option (List Char)
  | [] => none
  | (k, v) :: rest =>
    match lookupPart key rest with
    | some r => some r
    | none => if k = key then some v else none

/-- Decimal digit test for `int(...)` parsing. -/
def isDigitChar (c : Char) : Bool := '0' ≤ c && c ≤ '9'

/-- Value of a decimal digit character. -/
def digitVal (c : Char) : Nat := c.toNat - 48

/-- `int(timestamp_str)` restricted to plain decimal numerals (the only
shape `generate_webhook_signature` emits); anything else is a `ValueError`,
i.e. `none`. -/
def parseNatChars (l : List Char) : Option Nat :=
  if l ≠ [] ∧ l.all isDigitChar then
    some (l.foldl (fun a c => a * 10 + digitVal c) 0)
  else none

/-- `str(timestamp)`: most-significant-first decimal digits. -/
def natToChars (n : Nat) : List Char :=
  if n = 0 then ['0'] else (Nat.digits 10 n).reverse.map Nat.digitChar

/-- The signed message `f"{timestamp}.{payload}"`. -/
def signedMessage (timestamp : Nat) (payload : List Char) : List Char :=
  natToChars timestamp ++ '.' :: payload

/-- `verify_webhook_signature` from `webhooks.py`, with the HMAC digest
function abstracted as `mac` and the current time `int(time.time())` passed
as `now`. -/
def verify_webhook_signature (mac : List Char → List Char → List Char)
    (payload signature secret : List Char) (now : Int) (maxAge : Nat) : Bool :=
  if signature = [] then false
  else
    let parts := parseSigParts signature
    match lookupPart ['t'] parts, lookupPart ['v', '1'] parts with
    | some timestampStr, some hashValue =>
      if timestampStr = [] ∨ hashValue = [] then false
      else
        match parseNatChars timestampStr with
        | none => false
        | some timestamp =>
          if (now - (timestamp : Int)).natAbs > maxAge then false
          else
            let expectedHash := mac secret (signedMessage timestamp payload)
            hashValue = expectedHash
    | _, _ => false

/-- `generate_webhook_signature` from `webhooks.py`: the header value
`t=<timestamp>,v1=<hex_digest>`, with the digest function abstracted. -/
def generate_webhook_signature (mac : List Char → List Char → List Char)
    (payload secret : List Char) (timestamp : Nat) : List Char :=
  let hashValue := mac secret (signedMessage timestamp payload)
  't' :: '=' :: natToChars timestamp ++ ',' :: 'v' :: '1' :: '=' :: hashValue

/-! ## Derived observations and histories -/

/-- The balance `check_balance` reports for an account. -/
def observedBalance (db : DB) (userId : String) : Int :=
  (check_balance db userId 0).2

/-- One ledger operation of a job's history. -/
inductive LedgerOp where
  | deduct (amount : Int)
  | refund (amount : Int)
deriving DecidableEq, Repr

/-- Run one ledger operation for a job (a failed deduction leaves the state
unchanged, exactly as the service does). -/
def applyLedgerOp (db : DB) (userId jobId : String) : LedgerOp → DB
  | .deduct a => (deduct_tokens db userId a "api_job" jobId).1
  | .refund a => (refund_tokens db userId a "job_failed" jobId).1

/-- Run a whole job history. -/
def applyLedgerOps (db : DB) (userId jobId : String) : List LedgerOp → DB
  | [] => db
  | op :: rest => applyLedgerOps (applyLedgerOp db userId jobId op) userId jobId rest

/-- Total amount of the `deduction` transaction records for a job
(the "charged" total of the audit trail). -/
def deductionTotal (txs : List TxRecord) (jobId : String) : Int :=
  ((txs.filter (fun t => t.type == TxType.deduction && t.jobId == jobId)).map
    (fun t => t.amount)).sum

/-- Total amount of the `refund` transaction records for a job. -/
def refundTotal (txs : List TxRecord) (jobId : String) : Int :=
  ((txs.filter (fun t => t.type == TxType.refund && t.jobId == jobId)).map
    (fun t => t.amount)).sum

/-- Number of `deduction` transaction records for an account. -/
def deductionCount (txs : List TxRecord) : Nat :=
  (txs.filter (fun t => t.type == TxType.deduction)).length

/-- The nova tier `calculate_cost` reads from the options. -/
def novaTierOf (options : Option OperationOptions) : String :=
  match (options.getD {}).nova with
  | some novaOpts => novaOpts.tier
  | none => "standard"

/-- The flux model `calculate_cost` reads from the options. -/
def fluxModelOf (options : Option OperationOptions) : String :=
  match (options.getD {}).flux with
  | some fluxOpts => fluxOpts.model
  | none => "4x"

/-- Whether an external call outcome is an exception. -/
def isErr {ε α : Type} : Except ε α → Bool
  | .error _ => true
  | .ok _ => false

/-- Some requested stage's provider call raises (provider error or
timeout). -/
def stageFails (env : PipelineEnv) (operations : List Operation) : Prop :=
  (Operation.nova ∈ operations ∧ isErr env.nova) ∨
  (Operation.flux ∈ operations ∧ isErr env.flux) ∨
  (Operation.atlas ∈ operations ∧ isErr env.atlas)

/-- A job rewrite that only touches progress/results/timestamps: identity
on the id, owner, idempotency key, status, cost, error and webhook fields. -/
def KeepCore (j j' : JobDoc) : Prop :=
  j'.jobId = j.jobId ∧ j'.userId = j.userId ∧ j'.requestId = j.requestId ∧
  j'.status = j.status ∧ j'.cost = j.cost ∧ j'.error = j.error ∧
  j'.webhookUrl = j.webhookUrl

/-- How the stage loop of `trigger_pipeline` relates states: users and
transactions untouched, jobs rewritten pointwise by a `KeepCore` map. -/
def StageRel (db db' : DB) : Prop :=
  db'.users = db.users ∧ db'.txs = db.txs ∧
  ∃ g : JobDoc → JobDoc, db'.jobs = db.jobs.map g ∧ ∀ j, KeepCore j (g j)

/-- Jobs rewritten pointwise by a map preserving id, owner and idempotency
key (how any pipeline run relates states at the job-index level). -/
def KeysRel (db db' : DB) : Prop :=
  ∃ g : JobDoc → JobDoc, db'.jobs = db.jobs.map g ∧
    ∀ x, (g x).jobId = x.jobId ∧ (g x).userId = x.userId ∧ (g x).requestId = x.requestId

/-! ## Concrete fixtures used by witnesses and counterexamples -/

/-- An account holding 10 GCX in `tokens.balance`. -/
def userAlice : UserDoc := { balance := 10 }

/-- A legacy account: empty `tokens.balance`, 100 GCX still in
`credits_available`. -/
def userLegacy : UserDoc := { balance := 0, creditsAvailable := 100 }

/-- A store holding only `userAlice`. -/
def dbAlice : DB :=
  { users := fun k => if k = "alice" then some userAlice else none,
    txs := fun _ => [], jobs := [] }

/-- A store holding only the legacy account. -/
def dbLegacy : DB :=
  { users := fun k => if k = "legacy" then some userLegacy else none,
    txs := fun _ => [], jobs := [] }

/-- A pending job of `alice`, charged 3, with a webhook configured. -/
def jobPending : JobDoc :=
  { jobId := "job1", userId := "alice", status := .pending,
    operations := [Operation.nova, Operation.flux],
    webhookUrl := some "https://w.example/hook",
    cost := { estimated := 3, charged := 3, refunded := 0 },
    progress := { nova := some .pending, flux := some .pending } }

/-- `dbAlice` with `jobPending` stored. -/
def dbWithJob : DB :=
  { users := fun k => if k = "alice" then some userAlice else none,
    txs := fun _ => [], jobs := [jobPending] }

/-- Provider outcomes: every stage succeeds. -/
def envAllOk : PipelineEnv :=
  { nova := .ok "gc-meta", flux := .ok (some "https://img/up.png"),
    atlas := .ok (some "https://img/final.png") }

/-- Provider outcomes: nova succeeds, flux raises, atlas would succeed. -/
def envFluxFails : PipelineEnv :=
  { nova := .ok "gc-meta", flux := .error "upstream 500",
    atlas := .ok (some "https://img/final.png") }

/-- A store with a broke account: `poor` has neither balance nor legacy
credits. -/
def dbPoor : DB :=
  { users := fun k => if k = "poor" then some { balance := 0 } else none,
    txs := fun _ => [], jobs := [] }

/-- A store where `alice` already created a job under idempotency key
`rid0`. -/
def dbReplay : DB :=
  { users := fun k => if k = "alice" then some userAlice else none,
    txs := fun _ => [],
    jobs := [{ jobPending with requestId := some "rid0" }] }

/-! # Theorems -/

/-- C6 counterexample: the claim says exactly two of the four flux model
choices map to the high price (`cost_flux_4x`), but `calculate_cost` maps
three of them there — `"4x"`, `"anime"` and `"photo"` — and only `"2x"` to
the low price. -/
theorem C6_counterexample :
    (fluxModels.filter (fun m => fluxModelCost m == settings.cost_flux_4x))
      = ["4x", "anime", "photo"]
    ∧ (fluxModels.filter (fun m => fluxModelCost m == settings.cost_flux_4x)).length ≠ 2 := by
  decide

/-- C6 (amended): `calculate_cost` is a pure function of the requested
operations and options (it is a plain function of exactly those arguments):
stage A costs the standard or the full price according to the tier option,
stage B costs the low or the high price where THREE of the four model
choices map to the high price, stage C has the fixed cost `cost_atlas`, and
the total equals the sum of the per-stage breakdown costs, whose entries
are exactly the requested stages. -/
theorem C6_cost_function (operations : List Operation) (options : Option OperationOptions) :
    (calculate_cost operations options).1 =
        (if Operation.nova ∈ operations then novaCost options else 0)
      + (if Operation.flux ∈ operations then fluxModelCost (fluxModelOf options) else 0)
      + (if Operation.atlas ∈ operations then settings.cost_atlas else 0)
    ∧ novaCost options =
        (if novaTierOf options = "full_gcx" then settings.cost_nova_full
         else settings.cost_nova_standard)
    ∧ (calculate_cost operations options).1 =
        (((calculate_cost operations options).2).map (fun p => p.2.cost)).sum
    ∧ ((calculate_cost operations options).2).map Prod.fst =
        (if Operation.nova ∈ operations then ["nova"] else [])
        ++ (if Operation.flux ∈ operations then ["flux"] else [])
        ++ (if Operation.atlas ∈ operations then ["atlas"] else [])
    ∧ (fluxModels.filter (fun m => fluxModelCost m == settings.cost_flux_4x))
        = ["4x", "anime", "photo"]
    ∧ (fluxModels.filter (fun m => fluxModelCost m == settings.cost_flux_2x)) = ["2x"] := by
  refine ⟨?_, ?_, ?_, ?_, by decide, by decide⟩ <;>
  · by_cases h1 : Operation.nova ∈ operations <;>
      by_cases h2 : Operation.flux ∈ operations <;>
        by_cases h3 : Operation.atlas ∈ operations <;>
          simp [calculate_cost, novaCost, fluxModelOf, novaTierOf, fluxModelCost,
            h1, h2, h3] <;> ring_nf

/-- C10: the create endpoint reads `result["cost"]["estimated_gcx"]`, but
`create_job` keys the cost as `"estimated_aet"` on both the fresh-creation
path and the idempotent-replay path, so the endpoint lookup raises
`KeyError` (modelled as `none`) on every successful create.  Shown at a
concrete successful create call for each path: the `"estimated_gcx"` lookup
is empty while `"estimated_aet"` holds the cost. -/
theorem C10_cost_key_mismatch :
    ((create_job dbAlice envAllOk "alice" "key1" "https://img/a.png"
        [Operation.atlas] none none none "jobX" 100).2.2.map
      (fun r => (create_job_endpoint_cost r, r.cost.lookup "estimated_aet")))
      = .ok (none, some 1)
    ∧ ((create_job dbReplay envAllOk "alice" "key1" "https://img/a.png"
        [Operation.atlas] none none (some "rid0") "jobX" 100).2.2.map
      (fun r => (create_job_endpoint_cost r, r.cost.lookup "estimated_aet")))
      = .ok (none, some 3) := by
  constructor <;> rfl


/-- Updating a job document in place and then fetching it fetches the
updated document, provided the update preserves the id field. -/
theorem findJob_updateJob (db : DB) (id : String) (f : JobDoc → JobDoc)
    (hf : ∀ j, (f j).jobId = j.jobId) :
    (db.updateJob id f).findJob id = (db.findJob id).map f := by
  unfold DB.findJob DB.updateJob
  rw [List.find?_map]
  have hpred : ((fun j => j.jobId == id) ∘ fun j => if j.jobId == id then f j else j)
      = fun j : JobDoc => j.jobId == id := by
    funext j
    by_cases h : j.jobId = id <;> simp [h, hf]
  rw [hpred]
  cases hfind : db.jobs.find? (fun j => j.jobId == id) with
  | none => rfl
  | some j =>
    have hp := List.find?_some hfind
    simp only [Option.map]
    congr 1
    exact if_pos hp

theorem refund_tokens_jobs (db : DB) (u : String) (a : Int) (r j : String) :
    (refund_tokens db u a r j).1.jobs = db.jobs := by
  unfold refund_tokens DB.setUser DB.appendTx
  cases db.users u <;> rfl


theorem findJob_eq_of_jobs_eq (db db' : DB) (id : String) (h : db'.jobs = db.jobs) :
    db'.findJob id = db.findJob id := by
  unfold DB.findJob
  rw [h]


theorem C7_cancel (db : DB) (jobId userId : String) (now : Nat) :
    (∀ j0, db.findJob jobId = some j0 → j0.userId = userId →
      j0.status = JobStatus.pending → j0.cost.refunded = 0 → 0 ≤ j0.cost.charged →
      (cancel_job db jobId userId now).2 = true ∧
      ∃ j', (cancel_job db jobId userId now).1.findJob jobId = some j' ∧
        j'.status = JobStatus.cancelled ∧ j'.completedAt = some now ∧
        j'.cost.refunded = j'.cost.charged ∧ j'.cost.charged = j0.cost.charged)
    ∧ (db.findJob jobId = none → cancel_job db jobId userId now = (db, false))
    ∧ (∀ j0, db.findJob jobId = some j0 → j0.userId ≠ userId →
        cancel_job db jobId userId now = (db, false))
    ∧ (∀ j0, db.findJob jobId = some j0 → j0.userId = userId →
        j0.status ≠ JobStatus.pending →
        cancel_job db jobId userId now = (db, false)) := by
  refine ⟨?_, ?_, ?_, ?_⟩
  · intro j0 hfind howner hstatus hrefunded hcharged
    simp only [cancel_job, hfind]
    rw [if_neg (by simp [howner]), if_neg (by simp [hstatus])]
    have h1 : (db.updateJob jobId (fun j => { j with status := JobStatus.cancelled, completedAt := some now })).findJob jobId = some { j0 with status := JobStatus.cancelled, completedAt := some now } := by
      rw [findJob_updateJob db jobId (fun j => { j with status := JobStatus.cancelled, completedAt := some now }) (fun j => rfl), hfind]
      rfl
    by_cases hpos : j0.cost.charged > 0
    · rw [if_pos hpos]
      refine ⟨rfl, ?_⟩
      have h2 := refund_tokens_jobs (db.updateJob jobId (fun j => { j with status := JobStatus.cancelled, completedAt := some now })) userId j0.cost.charged "job_cancelled" jobId
      have h3 : ((refund_tokens (db.updateJob jobId (fun j => { j with status := JobStatus.cancelled, completedAt := some now })) userId j0.cost.charged "job_cancelled" jobId).1).findJob jobId = some { j0 with status := JobStatus.cancelled, completedAt := some now } := by
        rw [findJob_eq_of_jobs_eq _ _ _ h2]
        exact h1
      have h4 : (((refund_tokens (db.updateJob jobId (fun j => { j with status := JobStatus.cancelled, completedAt := some now })) userId j0.cost.charged "job_cancelled" jobId).1).updateJob jobId (fun j => { j with cost := { j.cost with refunded := j0.cost.charged } })).findJob jobId = some { j0 with status := JobStatus.cancelled, completedAt := some now, cost := { j0.cost with refunded := j0.cost.charged } } := by
        rw [findJob_updateJob _ jobId (fun j => { j with cost := { j.cost with refunded := j0.cost.charged } }) (fun j => rfl), h3]
        rfl
      exact ⟨_, h4, rfl, rfl, rfl, rfl⟩
    · rw [if_neg hpos]
      have hzero : j0.cost.charged = 0 := le_antisymm (not_lt.mp hpos) hcharged
      refine ⟨rfl, ⟨_, h1, rfl, rfl, ?_, rfl⟩⟩
      simp [hrefunded, hzero]
  · intro hnone
    simp only [cancel_job, hnone]
  · intro j0 hfind howner
    simp only [cancel_job, hfind]
    simp [howner]
  · intro j0 hfind howner hstatus
    simp only [cancel_job, hfind]
    simp [howner, hstatus]

/-- C7 witness: concrete cancel calls covering the successful case, the
wrong-owner case and the absent-job case. -/
theorem C7_cancel_witness :
    (cancel_job dbWithJob "job1" "alice" 7).2 = true
    ∧ cancel_job dbWithJob "job1" "bob" 7 = (dbWithJob, false)
    ∧ cancel_job dbWithJob "nope" "alice" 7 = (dbWithJob, false) := by
  have h := C7_cancel dbWithJob "job1" "alice" 7
  have h2 := C7_cancel dbWithJob "job1" "bob" 7
  have h3 := C7_cancel dbWithJob "nope" "alice" 7
  refine ⟨(h.1 jobPending (by rfl) rfl rfl rfl (by decide)).1, ?_, ?_⟩
  · exact h2.2.2.1 jobPending (by rfl) (by decide)
  · exact h3.2.1 (by rfl)

/-- C1: when the requested amount exceeds the account's current balance the
deduction fails with InsufficientFunds and mutates nothing (the state is
returned unchanged: same balance, no transaction appended), and `create_job`
aborts with the same error before persisting any job record and before any
pipeline call or webhook (empty effect log, state unchanged). -/
theorem C1_insufficient_funds_no_mutation
    (db : DB) (env : PipelineEnv) (userId apiKeyId imageUrl : String)
    (operations : List Operation) (options : Option OperationOptions)
    (webhookUrl requestId : Option String) (newJobId : String) (now : Nat) (u : UserDoc)
    (hFresh : idempotencyLookup db userId requestId = none)
    (hUser : db.users userId = some u)
    (hBal : (if u.balance = 0 then u.creditsAvailable else u.balance)
            < (calculate_cost operations options).1) :
    deduct_tokens db userId (calculate_cost operations options).1 "api_job" newJobId
      = (db, .error (.insufficientCredits
          (if u.balance = 0 then u.creditsAvailable else u.balance)
          (calculate_cost operations options).1))
    ∧ create_job db env userId apiKeyId imageUrl operations options webhookUrl requestId
        newJobId now
      = (db, {}, .error (.insufficientCredits
          (if u.balance = 0 then u.creditsAvailable else u.balance)
          (calculate_cost operations options).1)) := by
  have hded : deduct_tokens db userId (calculate_cost operations options).1 "api_job" newJobId
      = (db, .error (.insufficientCredits
          (if u.balance = 0 then u.creditsAvailable else u.balance)
          (calculate_cost operations options).1)) := by
    simp only [deduct_tokens, hUser]
    rw [if_pos hBal]
  refine ⟨hded, ?_⟩
  simp only [create_job, hFresh, hded]

/-- C1 witness: alice has 10 GCX in balance but the default three-stage
request costs more when repeated; use a poorer account: a user with 0
balance and 0 legacy credits cannot afford a 1-GCX atlas job and the call
leaves everything untouched. -/
theorem C1_insufficient_funds_witness :
    create_job dbPoor envAllOk "poor" "key1" "https://img/a.png"
        [Operation.atlas] none none none "jobX" 100
      = (dbPoor, {}, .error (.insufficientCredits 0 1)) := by
  have h := C1_insufficient_funds_no_mutation dbPoor envAllOk "poor" "key1"
    "https://img/a.png" [Operation.atlas] none none none "jobX" 100
    { balance := 0 } (by rfl) (by rfl) (by decide)
  exact h.2

/-- One limiter call inside a known window: the counter becomes the stored
current-window count plus one, and the call fails exactly when that exceeds
the limit. -/
theorem check_rate_limit_step (st : RLState) (key : String) (limit : Nat) (t n₀ : Nat)
    (ht : t / 60 = n₀) :
    check_rate_limit st key limit t
      = (fun k => if k = key
            then some { count := startCount st key (n₀ * 60) + 1, windowStart := n₀ * 60 }
            else st k,
         if startCount st key (n₀ * 60) + 1 > limit
         then .error { retryAfter := (n₀ * 60 + 60 : Int) - t, limit := limit, remaining := 0 }
         else .ok (limit, limit - (startCount st key (n₀ * 60) + 1), n₀ * 60 + 60)) := by
  unfold check_rate_limit startCount
  rw [ht]
  cases hk : st key with
  | none =>
    simp only []
    split <;> simp
  | some w =>
    by_cases hw : w.windowStart = n₀ * 60 <;>
      (simp only [hw, if_true, if_false, reduceIte]; split <;> simp [hw])

/-- Iterated calls decompose over list append. -/
theorem checkCalls_append (st : RLState) (key : String) (limit : Nat) (l₁ l₂ : List Nat) :
    checkCalls st key limit (l₁ ++ l₂)
      = ((checkCalls (checkCalls st key limit l₁).1 key limit l₂).1,
         (checkCalls st key limit l₁).2
           ++ (checkCalls (checkCalls st key limit l₁).1 key limit l₂).2) := by
  induction l₁ generalizing st with
  | nil => simp [checkCalls]
  | cons t ts ih => simp [checkCalls, ih]

/-- One outcome per call. -/
theorem checkCalls_length (st : RLState) (key : String) (limit : Nat) (times : List Nat) :
    (checkCalls st key limit times).2.length = times.length := by
  induction times generalizing st with
  | nil => rfl
  | cons t ts ih => simp [checkCalls, ih]

/-- Reading back the freshly written window. -/
theorem startCount_update (st : RLState) (key : String) (m W : Nat) :
    startCount (fun k => if k = key then some { count := m, windowStart := W } else st k)
      key W = m := by
  simp [startCount]

/-- As long as the counter stays within the limit, every call succeeds and
the counter advances by the number of calls. -/
theorem checkCalls_ok_spec (key : String) (limit : Nat) (n₀ : Nat) :
    ∀ (times : List Nat) (st : RLState) (c : Nat),
      (∀ t ∈ times, t / 60 = n₀) →
      startCount st key (n₀ * 60) = c →
      c + times.length ≤ limit →
      (∀ r ∈ (checkCalls st key limit times).2, ∃ v, r = .ok v)
      ∧ startCount (checkCalls st key limit times).1 key (n₀ * 60) = c + times.length := by
  intro times
  induction times with
  | nil =>
    intro st c _ hc _
    refine ⟨?_, ?_⟩
    · intro r hr
      simp [checkCalls] at hr
    · simpa [checkCalls] using hc
  | cons t ts ih =>
    intro st c hwin hc hle
    have ht : t / 60 = n₀ := hwin t (List.mem_cons_self t ts)
    have hstep := check_rate_limit_step st key limit t n₀ ht
    have hle' : c + ts.length + 1 ≤ limit := by
      simpa [List.length_cons] using hle
    have hok : ¬ (startCount st key (n₀ * 60) + 1 > limit) := by
      rw [hc]
      omega
    have hsucc : startCount (check_rate_limit st key limit t).1 key (n₀ * 60) = c + 1 := by
      rw [hstep]
      dsimp only
      rw [startCount_update]
      exact congrArg (fun x => x + 1) hc
    have hrOk : (check_rate_limit st key limit t).2
        = .ok (limit, limit - (startCount st key (n₀ * 60) + 1), n₀ * 60 + 60) := by
      rw [hstep]
      simp [hok]
    have ihh := ih (check_rate_limit st key limit t).1 (c + 1)
      (fun x hx => hwin x (List.mem_cons_of_mem t hx)) hsucc (by omega)
    have hunfold : (checkCalls st key limit (t :: ts)).2
        = (check_rate_limit st key limit t).2
          :: (checkCalls (check_rate_limit st key limit t).1 key limit ts).2 := rfl
    have hunfold1 : (checkCalls st key limit (t :: ts)).1
        = (checkCalls (check_rate_limit st key limit t).1 key limit ts).1 := rfl
    constructor
    · intro r hr2
      rw [hunfold] at hr2
      rcases List.mem_cons.mp hr2 with hr2 | hr2
      · exact ⟨_, by rw [hr2, hrOk]⟩
      · exact ihh.1 r hr2
    · rw [hunfold1, ihh.2]
      simp [List.length_cons]
      omega

/-- C8: starting from a state with no live window for the key, `limit + 1`
calls within one 60-second fixed window succeed on the first `limit` calls
and fail on the last with a RateLimited error carrying `remaining = 0` and
`retry_after` equal to the seconds until the next window boundary, with
`0 ≤ retry_after ≤ 60`. -/
theorem C8_fixed_window (st : RLState) (key : String) (limit : Nat) (n₀ : Nat)
    (times : List Nat) (tLast : Nat)
    (hlen : times.length = limit + 1)
    (hwin : ∀ t ∈ times, t / 60 = n₀)
    (hstart : startCount st key (n₀ * 60) = 0)
    (hlast : times.getLast? = some tLast) :
    (∀ r ∈ (checkCalls st key limit times).2.take limit, ∃ v, r = Except.ok v)
    ∧ (checkCalls st key limit times).2.getLast?
        = some (.error { retryAfter := (n₀ * 60 + 60 : Int) - tLast,
                         limit := limit, remaining := 0 })
    ∧ 0 ≤ (n₀ * 60 + 60 : Int) - tLast
    ∧ (n₀ * 60 + 60 : Int) - tLast ≤ 60 := by
  have hne : times ≠ [] := by
    intro h
    rw [h] at hlen
    simp at hlen
  have hsplit : times.dropLast ++ [times.getLast hne] = times :=
    List.dropLast_append_getLast hne
  have hlastEq : times.getLast hne = tLast := by
    have := List.getLast?_eq_getLast times hne
    rw [this] at hlast
    exact (Option.some_inj.mp hlast)
  have htsLen : times.dropLast.length = limit := by
    have := List.length_dropLast times
    omega
  have hwinTs : ∀ t ∈ times.dropLast, t / 60 = n₀ := by
    intro t ht
    exact hwin t (List.dropLast_subset times ht)
  have hspec := checkCalls_ok_spec key limit n₀ times.dropLast st 0 hwinTs hstart
    (by omega)
  have htMem : tLast ∈ times := by
    rw [← hlastEq]
    exact List.getLast_mem hne
  have htWin : tLast / 60 = n₀ := hwin tLast htMem
  have hstep := check_rate_limit_step (checkCalls st key limit times.dropLast).1 key limit
    tLast n₀ htWin
  have hcount := hspec.2
  rw [htsLen] at hcount
  have herr : (check_rate_limit (checkCalls st key limit times.dropLast).1 key limit tLast).2
      = .error { retryAfter := (n₀ * 60 + 60 : Int) - tLast, limit := limit, remaining := 0 } := by
    rw [hstep]
    dsimp only
    rw [hcount]
    simp
  have happ := checkCalls_append st key limit times.dropLast [tLast]
  rw [hlastEq] at hsplit
  have hres : (checkCalls st key limit times).2
      = (checkCalls st key limit times.dropLast).2
        ++ [(check_rate_limit (checkCalls st key limit times.dropLast).1 key limit tLast).2] := by
    conv_lhs => rw [← hsplit]
    rw [happ]
    rfl
  have hrsLen : (checkCalls st key limit times.dropLast).2.length = limit := by
    rw [checkCalls_length, htsLen]
  constructor
  · intro r hr
    rw [hres] at hr
    rw [List.take_left' hrsLen] at hr
    exact hspec.1 r hr
  refine ⟨?_, by omega, by omega⟩
  rw [hres, herr]
  simp

/-- C8 witness: key `k`, limit 2, three calls at seconds 5, 10 and 30 of the
first window: the first two succeed, the third fails with
`retry_after = 30`. -/
theorem C8_fixed_window_witness :
    (∀ r ∈ (checkCalls (fun _ => none) "k" 2 [5, 10, 30]).2.take 2, ∃ v, r = Except.ok v)
    ∧ (checkCalls (fun _ => none) "k" 2 [5, 10, 30]).2.getLast?
        = some (.error { retryAfter := (0 * 60 + 60 : Int) - 30, limit := 2, remaining := 0 })
    ∧ 0 ≤ (0 * 60 + 60 : Int) - 30
    ∧ (0 * 60 + 60 : Int) - 30 ≤ 60 :=
  C8_fixed_window (fun _ => none) "k" 2 0 [5, 10, 30] 30 (by decide) (by decide)
    (by simp [startCount]) (by decide)

/-- The balance the service reports when the legacy credits field is clear
is exactly `tokens.balance`. -/
theorem observedBalance_eq (db : DB) (userId : String) (u : UserDoc)
    (hu : db.users userId = some u) (hca : u.creditsAvailable = 0) :
    observedBalance db userId = u.balance := by
  simp only [observedBalance, check_balance, hu]
  rw [hca]
  split <;> omega

/-- Deduction totals add over appended audit records. -/
theorem deductionTotal_append (txs l : List TxRecord) (jobId : String) :
    deductionTotal (txs ++ l) jobId = deductionTotal txs jobId + deductionTotal l jobId := by
  simp [deductionTotal, List.filter_append]

/-- Refund totals add over appended audit records. -/
theorem refundTotal_append (txs l : List TxRecord) (jobId : String) :
    refundTotal (txs ++ l) jobId = refundTotal txs jobId + refundTotal l jobId := by
  simp [refundTotal, List.filter_append]

/-- The unfolded form of a successful deduction. -/
theorem deduct_tokens_ok (db : DB) (userId : String) (amount : Int) (reason jobId : String)
    (u : UserDoc) (hu : db.users userId = some u)
    (hge : ¬ (if u.balance = 0 then u.creditsAvailable else u.balance) < amount) :
    deduct_tokens db userId amount reason jobId
      = ((db.setUser userId
            { u with balance := (if u.balance = 0 then u.creditsAvailable else u.balance) - amount,
                     totalSpent := u.totalSpent + amount }).appendTx userId
            { type := .deduction, amount := amount, reason := reason, jobId := jobId,
              balanceAfter := (if u.balance = 0 then u.creditsAvailable else u.balance) - amount },
         .ok ((if u.balance = 0 then u.creditsAvailable else u.balance) - amount)) := by
  simp only [deduct_tokens, hu]
  rw [if_neg hge]

/-- The unfolded form of a refund on an existing account. -/
theorem refund_tokens_ok (db : DB) (userId : String) (amount : Int) (reason jobId : String)
    (u : UserDoc) (hu : db.users userId = some u) :
    refund_tokens db userId amount reason jobId
      = ((db.setUser userId
            { u with balance := u.balance + amount, totalSpent := u.totalSpent - amount }).appendTx
            userId
            { type := .refund, amount := amount, reason := reason, jobId := jobId,
              balanceAfter := u.balance + amount },
         u.balance + amount) := by
  simp only [refund_tokens, hu]

/-- A single ledger operation conserves value against the audit trail when
the legacy credits field is clear, and keeps it clear. -/
theorem applyLedgerOp_step (db : DB) (userId jobId : String) (op : LedgerOp)
    (hca : ∀ u, db.users userId = some u → u.creditsAvailable = 0) :
    (observedBalance db userId
        - observedBalance (applyLedgerOp db userId jobId op) userId
      = (deductionTotal ((applyLedgerOp db userId jobId op).txs userId) jobId
          - deductionTotal (db.txs userId) jobId)
        - (refundTotal ((applyLedgerOp db userId jobId op).txs userId) jobId
          - refundTotal (db.txs userId) jobId))
    ∧ (∀ u, (applyLedgerOp db userId jobId op).users userId = some u →
        u.creditsAvailable = 0) := by
  cases op with
  | deduct a =>
    cases hu : db.users userId with
    | none =>
      have hdb : applyLedgerOp db userId jobId (.deduct a) = db := by
        simp [applyLedgerOp, deduct_tokens, hu]
      rw [hdb]
      exact ⟨by ring, hca⟩
    | some u =>
      have hca0 : u.creditsAvailable = 0 := hca u hu
      by_cases hlt : (if u.balance = 0 then u.creditsAvailable else u.balance) < a
      · have hdb : applyLedgerOp db userId jobId (.deduct a) = db := by
          simp only [applyLedgerOp, deduct_tokens, hu]
          rw [if_pos hlt]
        rw [hdb]
        exact ⟨by ring, hca⟩
      · have hcur : (if u.balance = 0 then u.creditsAvailable else u.balance) = u.balance := by
          rw [hca0]
          split <;> omega
        have hdb : applyLedgerOp db userId jobId (.deduct a)
            = (db.setUser userId
                { u with balance := u.balance - a, totalSpent := u.totalSpent + a }).appendTx
                userId
                { type := .deduction, amount := a, reason := "api_job", jobId := jobId,
                  balanceAfter := u.balance - a } := by
          simp only [applyLedgerOp]
          rw [deduct_tokens_ok db userId a "api_job" jobId u hu hlt, hcur]
        rw [hdb]
        refine ⟨?_, ?_⟩
        · have hobs : observedBalance db userId = u.balance := observedBalance_eq db userId u hu hca0
          have hobs2 : observedBalance ((db.setUser userId
              { u with balance := u.balance - a, totalSpent := u.totalSpent + a }).appendTx
              userId
              { type := .deduction, amount := a, reason := "api_job", jobId := jobId,
                balanceAfter := u.balance - a }) userId = u.balance - a :=
            observedBalance_eq _ userId
              { u with balance := u.balance - a, totalSpent := u.totalSpent + a }
              (by simp [DB.setUser, DB.appendTx]) hca0
          rw [hobs, hobs2]
          have htxs : ((db.setUser userId
              { u with balance := u.balance - a, totalSpent := u.totalSpent + a }).appendTx
              userId
              { type := .deduction, amount := a, reason := "api_job", jobId := jobId,
                balanceAfter := u.balance - a }).txs userId
              = db.txs userId ++
                [({ type := .deduction, amount := a, reason := "api_job", jobId := jobId,
                    balanceAfter := u.balance - a } : TxRecord)] := by
            simp [DB.setUser, DB.appendTx]
          rw [htxs, deductionTotal_append, refundTotal_append]
          simp [deductionTotal, refundTotal]
        · intro v hv
          simp only [DB.setUser, DB.appendTx, if_true, Option.some_inj] at hv
          rw [← hv]
          exact hca0
  | refund a =>
    cases hu : db.users userId with
    | none =>
      have hdb : applyLedgerOp db userId jobId (.refund a) = db := by
        simp [applyLedgerOp, refund_tokens, hu]
      rw [hdb]
      exact ⟨by ring, hca⟩
    | some u =>
      have hca0 : u.creditsAvailable = 0 := hca u hu
      have hdb : applyLedgerOp db userId jobId (.refund a)
          = (db.setUser userId
              { u with balance := u.balance + a, totalSpent := u.totalSpent - a }).appendTx
              userId
              { type := .refund, amount := a, reason := "job_failed", jobId := jobId,
                balanceAfter := u.balance + a } := by
        simp only [applyLedgerOp]
        rw [refund_tokens_ok db userId a "job_failed" jobId u hu]
      rw [hdb]
      refine ⟨?_, ?_⟩
      · have hobs : observedBalance db userId = u.balance := observedBalance_eq db userId u hu hca0
        have hobs2 : observedBalance ((db.setUser userId
            { u with balance := u.balance + a, totalSpent := u.totalSpent - a }).appendTx
            userId
            { type := .refund, amount := a, reason := "job_failed", jobId := jobId,
              balanceAfter := u.balance + a }) userId = u.balance + a :=
          observedBalance_eq _ userId
            { u with balance := u.balance + a, totalSpent := u.totalSpent - a }
            (by simp [DB.setUser, DB.appendTx]) hca0
        rw [hobs, hobs2]
        have htxs : ((db.setUser userId
            { u with balance := u.balance + a, totalSpent := u.totalSpent - a }).appendTx
            userId
            { type := .refund, amount := a, reason := "job_failed", jobId := jobId,
              balanceAfter := u.balance + a }).txs userId
            = db.txs userId ++
              [({ type := .refund, amount := a, reason := "job_failed", jobId := jobId,
                  balanceAfter := u.balance + a } : TxRecord)] := by
          simp [DB.setUser, DB.appendTx]
        rw [htxs, deductionTotal_append, refundTotal_append]
        simp [deductionTotal, refundTotal]
      · intro v hv
        simp only [DB.setUser, DB.appendTx, if_true, Option.some_inj] at hv
        rw [← hv]
        exact hca0

/-- C3 (amended): ledger conservation.  For accounts whose legacy
`credits_available` field is clear (0) — or which do not exist — every
history of deductions and refunds for a job satisfies
`balance_before - balance_after = charged - refunded`, where the balance is
what `check_balance` reports and charged/refunded are the sums of the job's
`deduction`/`refund` audit records. -/
theorem C3_ledger_conservation (db : DB) (userId jobId : String) (ops : List LedgerOp)
    (hca : ∀ u, db.users userId = some u → u.creditsAvailable = 0) :
    observedBalance db userId
      - observedBalance (applyLedgerOps db userId jobId ops) userId
    = (deductionTotal ((applyLedgerOps db userId jobId ops).txs userId) jobId
        - deductionTotal (db.txs userId) jobId)
      - (refundTotal ((applyLedgerOps db userId jobId ops).txs userId) jobId
        - refundTotal (db.txs userId) jobId) := by
  induction ops generalizing db with
  | nil =>
    simp [applyLedgerOps]
  | cons op rest ih =>
    have hstep := applyLedgerOp_step db userId jobId op hca
    have hrec := ih (applyLedgerOp db userId jobId op) hstep.2
    have hunf : applyLedgerOps db userId jobId (op :: rest)
        = applyLedgerOps (applyLedgerOp db userId jobId op) userId jobId rest := rfl
    rw [hunf]
    linarith [hstep.1, hrec]

/-- C3 counterexample: a legacy account holding its 100 GCX in
`credits_available` (with `tokens.balance = 0`).  A single deduction of 100
succeeds via the fallback and writes `tokens.balance = 0`, so
`check_balance` still reports 100 afterwards: the observed balance drops by
0 while the audit trail records a charge of 100. -/
theorem C3_counterexample :
    ¬ (observedBalance dbLegacy "legacy"
        - observedBalance
            (applyLedgerOps dbLegacy "legacy" "job1" [LedgerOp.deduct 100]) "legacy"
      = (deductionTotal
            ((applyLedgerOps dbLegacy "legacy" "job1" [LedgerOp.deduct 100]).txs "legacy")
            "job1"
          - deductionTotal (dbLegacy.txs "legacy") "job1")
        - (refundTotal
            ((applyLedgerOps dbLegacy "legacy" "job1" [LedgerOp.deduct 100]).txs "legacy")
            "job1"
          - refundTotal (dbLegacy.txs "legacy") "job1")) := by
  decide

/-- C3 witness: a deduct-then-refund history on a clean account (alice,
balance 10, no legacy credits) conserves value. -/
theorem C3_ledger_conservation_witness :
    observedBalance dbAlice "alice"
      - observedBalance
          (applyLedgerOps dbAlice "alice" "job1"
            [LedgerOp.deduct 4, LedgerOp.refund 4]) "alice"
    = (deductionTotal
          ((applyLedgerOps dbAlice "alice" "job1"
            [LedgerOp.deduct 4, LedgerOp.refund 4]).txs "alice") "job1"
        - deductionTotal (dbAlice.txs "alice") "job1")
      - (refundTotal
          ((applyLedgerOps dbAlice "alice" "job1"
            [LedgerOp.deduct 4, LedgerOp.refund 4]).txs "alice") "job1"
        - refundTotal (dbAlice.txs "alice") "job1") := by
  refine C3_ledger_conservation dbAlice "alice" "job1"
    [LedgerOp.deduct 4, LedgerOp.refund 4] ?_
  intro u hu
  have h2 : userAlice = u := by simpa [dbAlice] using hu
  rw [← h2]
  rfl

/-- Fetching a job through a jobs-map that preserves ids. -/
theorem findJob_jobs_map (db db' : DB) (g : JobDoc → JobDoc) (id : String)
    (hjobs : db'.jobs = db.jobs.map g) (hg : ∀ x, (g x).jobId = x.jobId) :
    db'.findJob id = (db.findJob id).map g := by
  unfold DB.findJob
  rw [hjobs, List.find?_map]
  have hpred : ((fun j => j.jobId == id) ∘ g) = fun j : JobDoc => j.jobId == id := by
    funext j
    simp [hg]
  rw [hpred]

theorem KeepCore_refl (j : JobDoc) : KeepCore j j :=
  ⟨rfl, rfl, rfl, rfl, rfl, rfl, rfl⟩

theorem KeepCore_trans (a b c : JobDoc) (h1 : KeepCore a b) (h2 : KeepCore b c) :
    KeepCore a c := by
  obtain ⟨p1, p2, p3, p4, p5, p6, p7⟩ := h1
  obtain ⟨q1, q2, q3, q4, q5, q6, q7⟩ := h2
  exact ⟨q1.trans p1, q2.trans p2, q3.trans p3, q4.trans p4, q5.trans p5,
    q6.trans p6, q7.trans p7⟩

theorem StageRel_refl (db : DB) : StageRel db db :=
  ⟨rfl, rfl, id, (List.map_id db.jobs).symm, fun j => KeepCore_refl j⟩

theorem StageRel_trans (db1 db2 db3 : DB) (h1 : StageRel db1 db2) (h2 : StageRel db2 db3) :
    StageRel db1 db3 := by
  obtain ⟨hu1, ht1, g1, hj1, hk1⟩ := h1
  obtain ⟨hu2, ht2, g2, hj2, hk2⟩ := h2
  refine ⟨hu2.trans hu1, ht2.trans ht1, g2 ∘ g1, ?_, ?_⟩
  · rw [hj2, hj1, List.map_map]
  · intro j
    exact KeepCore_trans j (g1 j) (g2 (g1 j)) (hk1 j) (hk2 (g1 j))

theorem StageRel_updateJob (db : DB) (id : String) (f : JobDoc → JobDoc)
    (hf : ∀ j, KeepCore j (f j)) :
    StageRel db (db.updateJob id f) := by
  refine ⟨rfl, rfl, fun j => if j.jobId == id then f j else j, rfl, ?_⟩
  intro j
  dsimp only
  by_cases h : j.jobId == id
  · rw [if_pos h]
    exact hf j
  · rw [if_neg h]
    exact KeepCore_refl j

theorem runAtlas_rel (db : DB) (env : PipelineEnv) (jobId : String)
    (calls : List Operation) (results : ResultsDoc) (operations : List Operation) :
    StageRel db (runAtlas db env jobId calls results operations).1 := by
  unfold runAtlas
  by_cases h : Operation.atlas ∈ operations
  · rw [if_pos h]
    cases henv : env.atlas with
    | error e =>
      dsimp only
      apply StageRel_updateJob
      intro j
      exact ⟨rfl, rfl, rfl, rfl, rfl, rfl, rfl⟩
    | ok finalUrl =>
      dsimp only
      refine StageRel_trans _ _ _ ?_ (StageRel_updateJob _ _ _ ?_)
      · apply StageRel_updateJob
        intro j
        exact ⟨rfl, rfl, rfl, rfl, rfl, rfl, rfl⟩
      · intro j
        exact ⟨rfl, rfl, rfl, rfl, rfl, rfl, rfl⟩
  · rw [if_neg h]
    exact StageRel_refl db

theorem runFlux_rel (db : DB) (env : PipelineEnv) (jobId : String)
    (calls : List Operation) (results : ResultsDoc) (operations : List Operation) :
    StageRel db (runFlux db env jobId calls results operations).1 := by
  unfold runFlux
  by_cases h : Operation.flux ∈ operations
  · rw [if_pos h]
    cases henv : env.flux with
    | error e =>
      dsimp only
      apply StageRel_updateJob
      intro j
      exact ⟨rfl, rfl, rfl, rfl, rfl, rfl, rfl⟩
    | ok upscaledUrl =>
      dsimp only
      refine StageRel_trans _ _ _ ?_ (runAtlas_rel _ env jobId _ _ operations)
      refine StageRel_trans _ _ _ ?_ (StageRel_updateJob _ _ _ ?_)
      · apply StageRel_updateJob
        intro j
        exact ⟨rfl, rfl, rfl, rfl, rfl, rfl, rfl⟩
      · intro j
        exact ⟨rfl, rfl, rfl, rfl, rfl, rfl, rfl⟩
  · rw [if_neg h]
    exact runAtlas_rel db env jobId calls results operations

theorem runNova_rel (db : DB) (env : PipelineEnv) (jobId imageUrl : String)
    (operations : List Operation) :
    StageRel db (runNova db env jobId imageUrl operations).1 := by
  unfold runNova
  by_cases h : Operation.nova ∈ operations
  · rw [if_pos h]
    cases henv : env.nova with
    | error e =>
      dsimp only
      apply StageRel_updateJob
      intro j
      exact ⟨rfl, rfl, rfl, rfl, rfl, rfl, rfl⟩
    | ok goldenCodex =>
      dsimp only
      refine StageRel_trans _ _ _ ?_ (runFlux_rel _ env jobId _ _ operations)
      refine StageRel_trans _ _ _ ?_ (StageRel_updateJob _ _ _ ?_)
      · apply StageRel_updateJob
        intro j
        exact ⟨rfl, rfl, rfl, rfl, rfl, rfl, rfl⟩
      · intro j
        exact ⟨rfl, rfl, rfl, rfl, rfl, rfl, rfl⟩
  · rw [if_neg h]
    exact runFlux_rel db env jobId [] _ operations

/-- A requested failing Atlas stage makes the stage loop raise. -/
theorem runAtlas_err (db : DB) (env : PipelineEnv) (jobId : String)
    (calls : List Operation) (results : ResultsDoc) (operations : List Operation)
    (h : Operation.atlas ∈ operations) (he : isErr env.atlas = true) :
    isErr (runAtlas db env jobId calls results operations).2.2 = true := by
  unfold runAtlas
  rw [if_pos h]
  cases henv : env.atlas with
  | error e => rfl
  | ok finalUrl =>
    rw [henv] at he
    simp [isErr] at he

/-- A requested failing Flux or Atlas stage makes the loop from Flux on
raise. -/
theorem runFlux_err (db : DB) (env : PipelineEnv) (jobId : String)
    (calls : List Operation) (results : ResultsDoc) (operations : List Operation)
    (h : (Operation.flux ∈ operations ∧ isErr env.flux = true)
       ∨ (Operation.atlas ∈ operations ∧ isErr env.atlas = true)) :
    isErr (runFlux db env jobId calls results operations).2.2 = true := by
  unfold runFlux
  by_cases hf : Operation.flux ∈ operations
  · rw [if_pos hf]
    cases henv : env.flux with
    | error e => rfl
    | ok upscaledUrl =>
      dsimp only
      rcases h with ⟨_, he⟩ | ⟨ha, he⟩
      · rw [henv] at he
        simp [isErr] at he
      · exact runAtlas_err _ env jobId _ _ operations ha he
  · rw [if_neg hf]
    rcases h with ⟨hf2, _⟩ | ⟨ha, he⟩
    · exact absurd hf2 hf
    · exact runAtlas_err _ env jobId _ _ operations ha he

/-- Any requested failing stage makes the whole stage loop raise. -/
theorem runNova_err (db : DB) (env : PipelineEnv) (jobId imageUrl : String)
    (operations : List Operation) (h : stageFails env operations) :
    isErr (runNova db env jobId imageUrl operations).2.2 = true := by
  unfold runNova
  by_cases hn : Operation.nova ∈ operations
  · rw [if_pos hn]
    cases henv : env.nova with
    | error e => rfl
    | ok goldenCodex =>
      dsimp only
      rcases h with ⟨_, he⟩ | h2
      · rw [henv] at he
        simp [isErr] at he
      · exact runFlux_err _ env jobId _ _ operations h2
  · rw [if_neg hn]
    rcases h with ⟨hn2, _⟩ | h2
    · exact absurd hn2 hn
    · exact runFlux_err db env jobId [] _ operations h2

/-- C4: any fault in a requested stage (provider error or timeout, at any
stage) is caught at the orchestrator boundary: the job is marked FAILED
with a structured `pipeline_error` whose retryable flag is true, the full
charged amount is refunded (`cost.refunded = cost.charged`, under the
creation invariants `refunded = 0`, `0 ≤ charged`), and the `job.failed`
webhook is dispatched exactly when a webhook URL is configured.  The model
of `trigger_pipeline` is a total function, reflecting that the
`except Exception` handler lets no stage fault escape. -/
theorem C4_pipeline_failure (db : DB) (env : PipelineEnv)
    (jobId imageUrl userId : String) (operations : List Operation) (now : Nat) (j0 : JobDoc)
    (hj0 : db.findJob jobId = some j0)
    (hFail : stageFails env operations)
    (hRefunded : j0.cost.refunded = 0)
    (hCharged : 0 ≤ j0.cost.charged) :
    ∃ j', (trigger_pipeline db env jobId imageUrl operations userId now).1.findJob jobId
        = some j'
      ∧ j'.status = JobStatus.failed
      ∧ (∃ msg, j'.error = some { code := "pipeline_error", message := msg, retryable := true })
      ∧ j'.cost.charged = j0.cost.charged
      ∧ j'.cost.refunded = j'.cost.charged
      ∧ (trigger_pipeline db env jobId imageUrl operations userId now).2.webhooks
          = (if j0.webhookUrl.isSome then [("job.failed", jobId)] else []) := by
  have hj1 : (db.updateJob jobId
      (fun j => { j with status := JobStatus.processing, startedAt := some now })).findJob jobId
      = some { j0 with status := JobStatus.processing, startedAt := some now } := by
    rw [findJob_updateJob db jobId
      (fun j => { j with status := JobStatus.processing, startedAt := some now })
      (fun j => rfl), hj0]
    rfl
  rcases hrn : runNova (db.updateJob jobId
      (fun j => { j with status := JobStatus.processing, startedAt := some now }))
      env jobId imageUrl operations with ⟨db2, calls2, r2⟩
  have herr := runNova_err (db.updateJob jobId
      (fun j => { j with status := JobStatus.processing, startedAt := some now }))
      env jobId imageUrl operations hFail
  rw [hrn] at herr
  obtain ⟨msg, hmsg⟩ : ∃ msg, r2 = Except.error msg := by
    cases r2 with
    | error m => exact ⟨m, rfl⟩
    | ok v => simp [isErr] at herr
  subst hmsg
  obtain ⟨j2, hj2, hcost, hweb⟩ : ∃ j2, db2.findJob jobId = some j2
      ∧ j2.cost = j0.cost ∧ j2.webhookUrl = j0.webhookUrl := by
    obtain ⟨hu2, ht2, g, hjobs2, hkeep2⟩ := runNova_rel (db.updateJob jobId
        (fun j => { j with status := JobStatus.processing, startedAt := some now }))
        env jobId imageUrl operations
    rw [hrn] at hjobs2
    refine ⟨g { j0 with status := JobStatus.processing, startedAt := some now }, ?_, ?_, ?_⟩
    · have := findJob_jobs_map (db.updateJob jobId
          (fun j => { j with status := JobStatus.processing, startedAt := some now })) db2 g
          jobId hjobs2 (fun x => (hkeep2 x).1)
      rw [this, hj1]
      rfl
    · exact (hkeep2 { j0 with status := JobStatus.processing, startedAt := some now }).2.2.2.2.1
    · exact
        (hkeep2 { j0 with status := JobStatus.processing, startedAt := some now }).2.2.2.2.2.2
  have hj3 : (db2.updateJob jobId
      (fun j => { j with status := JobStatus.failed,
                         error := some { code := "pipeline_error", message := msg, retryable := true },
                         completedAt := some now })).findJob jobId
      = some { j2 with status := JobStatus.failed,
                       error := some { code := "pipeline_error", message := msg, retryable := true },
                       completedAt := some now } := by
    rw [findJob_updateJob db2 jobId
      (fun j => { j with status := JobStatus.failed,
                         error := some { code := "pipeline_error", message := msg, retryable := true },
                         completedAt := some now }) (fun j => rfl), hj2]
    rfl
  simp only [trigger_pipeline]
  rw [hrn]
  dsimp only
  rw [hj3]
  dsimp only
  have hcost2 : ({ j2 with status := JobStatus.failed,
                           error := some { code := "pipeline_error", message := msg, retryable := true },
                           completedAt := some now } : JobDoc).cost.charged = j0.cost.charged := by
    dsimp only
    rw [hcost]
  rw [hcost2]
  by_cases hpos : j0.cost.charged > 0
  · rw [if_pos hpos]
    have hjobsR := refund_tokens_jobs (db2.updateJob jobId
      (fun j => { j with status := JobStatus.failed,
                         error := some { code := "pipeline_error", message := msg, retryable := true },
                         completedAt := some now })) userId j0.cost.charged "job_failed" jobId
    have hjR : ((refund_tokens (db2.updateJob jobId
        (fun j => { j with status := JobStatus.failed,
                           error := some { code := "pipeline_error", message := msg, retryable := true },
                           completedAt := some now })) userId j0.cost.charged "job_failed"
          jobId).1).findJob jobId
        = some { j2 with status := JobStatus.failed,
                         error := some { code := "pipeline_error", message := msg, retryable := true },
                         completedAt := some now } := by
      rw [findJob_eq_of_jobs_eq _ _ _ hjobsR]
      exact hj3
    have hjF : (((refund_tokens (db2.updateJob jobId
        (fun j => { j with status := JobStatus.failed,
                           error := some { code := "pipeline_error", message := msg, retryable := true },
                           completedAt := some now })) userId j0.cost.charged "job_failed"
          jobId).1).updateJob
          jobId (fun j => { j with cost := { j.cost with refunded := j0.cost.charged } })).findJob
          jobId
        = some { j2 with status := JobStatus.failed,
                         error := some { code := "pipeline_error", message := msg, retryable := true },
                         completedAt := some now,
                         cost := { j2.cost with refunded := j0.cost.charged } } := by
      rw [findJob_updateJob _ jobId
        (fun j => { j with cost := { j.cost with refunded := j0.cost.charged } })
        (fun j => rfl), hjR]
      rfl
    by_cases hw : j0.webhookUrl.isSome
    · rw [if_pos (by rw [hweb]; exact hw)]
      refine ⟨_, hjF, rfl, ⟨msg, rfl⟩, ?_, ?_, by rw [if_pos hw]⟩
      · dsimp only
        rw [hcost]
      · dsimp only
        rw [hcost]
    · rw [if_neg (by rw [hweb]; exact hw)]
      refine ⟨_, hjF, rfl, ⟨msg, rfl⟩, ?_, ?_, by rw [if_neg hw]⟩
      · dsimp only
        rw [hcost]
      · dsimp only
        rw [hcost]
  · rw [if_neg hpos]
    have hzero : j0.cost.charged = 0 := le_antisymm (not_lt.mp hpos) hCharged
    by_cases hw : j0.webhookUrl.isSome
    · rw [if_pos (by rw [hweb]; exact hw)]
      refine ⟨_, hj3, rfl, ⟨msg, rfl⟩, ?_, ?_, by rw [if_pos hw]⟩
      · dsimp only
        rw [hcost]
      · dsimp only
        rw [hcost, hRefunded, hzero]
    · rw [if_neg (by rw [hweb]; exact hw)]
      refine ⟨_, hj3, rfl, ⟨msg, rfl⟩, ?_, ?_, by rw [if_neg hw]⟩
      · dsimp only
        rw [hcost]
      · dsimp only
        rw [hcost, hRefunded, hzero]

/-- C4 witness: alice's pending job (charged 3, webhook configured) run
against providers where flux raises. -/
theorem C4_pipeline_failure_witness :
    ∃ j', (trigger_pipeline dbWithJob envFluxFails "job1" "https://img/a.png"
        [Operation.nova, Operation.flux] "alice" 50).1.findJob "job1" = some j'
      ∧ j'.status = JobStatus.failed
      ∧ (∃ msg, j'.error = some { code := "pipeline_error", message := msg, retryable := true })
      ∧ j'.cost.charged = jobPending.cost.charged
      ∧ j'.cost.refunded = j'.cost.charged
      ∧ (trigger_pipeline dbWithJob envFluxFails "job1" "https://img/a.png"
          [Operation.nova, Operation.flux] "alice" 50).2.webhooks
          = (if jobPending.webhookUrl.isSome then [("job.failed", "job1")] else []) :=
  C4_pipeline_failure dbWithJob envFluxFails "job1" "https://img/a.png" "alice"
    [Operation.nova, Operation.flux] 50 jobPending (by rfl)
    (Or.inr (Or.inl ⟨by decide, by decide⟩)) (by decide) (by decide)

/-- C5: when stage B (flux) fails after stage A (nova) succeeded, the final
job is FAILED, stage A's progress entry is `completed`, stage B's progress
entry reflects the failure — it is the in-flight `processing` marker set
before the call and never advanced to `completed` (the progress vocabulary
has no failed value; the job-level status and error carry the failure) —
and the refund equals the total charge for all requested stages
(`refunded = charged`), not stage B's share alone. -/
theorem C5_stage_b_failure (db : DB) (env : PipelineEnv)
    (jobId imageUrl userId : String) (operations : List Operation) (now : Nat)
    (j0 : JobDoc) (d m : String)
    (hj0 : db.findJob jobId = some j0)
    (hNovaIn : Operation.nova ∈ operations)
    (hFluxIn : Operation.flux ∈ operations)
    (hNova : env.nova = .ok d)
    (hFlux : env.flux = .error m)
    (hCharged : 0 < j0.cost.charged) :
    ∃ j', (trigger_pipeline db env jobId imageUrl operations userId now).1.findJob jobId
        = some j'
      ∧ j'.status = JobStatus.failed
      ∧ j'.progress.nova = some JobStatus.completed
      ∧ j'.progress.flux = some JobStatus.processing
      ∧ j'.progress.flux ≠ some JobStatus.completed
      ∧ j'.cost.charged = j0.cost.charged
      ∧ j'.cost.refunded = j0.cost.charged := by
  have hrn : runNova (db.updateJob jobId
      (fun j => { j with status := JobStatus.processing, startedAt := some now }))
      env jobId imageUrl operations
      = (((((db.updateJob jobId
            (fun j => { j with status := JobStatus.processing, startedAt := some now })).updateJob
            jobId (fun j => { j with progress := { j.progress with nova := some .processing } })).updateJob
            jobId (fun j => { j with progress := { j.progress with nova := some .completed } })).updateJob
            jobId (fun j => { j with progress := { j.progress with flux := some .processing } })),
          [Operation.nova, Operation.flux], Except.error m) := by
    unfold runNova runFlux
    rw [if_pos hNovaIn, hNova]
    dsimp only
    rw [if_pos hFluxIn, hFlux]
    rfl
  have hj1 : (db.updateJob jobId
      (fun j => { j with status := JobStatus.processing, startedAt := some now })).findJob jobId
      = some { j0 with status := JobStatus.processing, startedAt := some now } := by
    rw [findJob_updateJob db jobId
      (fun j => { j with status := JobStatus.processing, startedAt := some now })
      (fun j => rfl), hj0]
    rfl
  have hj2 : ((db.updateJob jobId
      (fun j => { j with status := JobStatus.processing, startedAt := some now })).updateJob
      jobId (fun j => { j with progress := { j.progress with nova := some .processing } })).findJob
      jobId
      = some { j0 with status := JobStatus.processing, startedAt := some now,
                       progress := { j0.progress with nova := some JobStatus.processing } } := by
    rw [findJob_updateJob _ jobId
      (fun j => { j with progress := { j.progress with nova := some .processing } })
      (fun j => rfl), hj1]
    rfl
  have hj3 : (((db.updateJob jobId
      (fun j => { j with status := JobStatus.processing, startedAt := some now })).updateJob
      jobId (fun j => { j with progress := { j.progress with nova := some .processing } })).updateJob
      jobId (fun j => { j with progress := { j.progress with nova := some .completed } })).findJob
      jobId
      = some { j0 with status := JobStatus.processing, startedAt := some now,
                       progress := { j0.progress with nova := some JobStatus.completed } } := by
    rw [findJob_updateJob _ jobId
      (fun j => { j with progress := { j.progress with nova := some .completed } })
      (fun j => rfl), hj2]
    rfl
  have hj4 : ((((db.updateJob jobId
      (fun j => { j with status := JobStatus.processing, startedAt := some now })).updateJob
      jobId (fun j => { j with progress := { j.progress with nova := some .processing } })).updateJob
      jobId (fun j => { j with progress := { j.progress with nova := some .completed } })).updateJob
      jobId (fun j => { j with progress := { j.progress with flux := some .processing } })).findJob
      jobId
      = some { j0 with status := JobStatus.processing, startedAt := some now,
                       progress := { j0.progress with nova := some JobStatus.completed,
                                                      flux := some JobStatus.processing } } := by
    rw [findJob_updateJob _ jobId
      (fun j => { j with progress := { j.progress with flux := some .processing } })
      (fun j => rfl), hj3]
    rfl
  simp only [trigger_pipeline]
  rw [hrn]
  dsimp only
  have hj5 : (((((db.updateJob jobId
      (fun j => { j with status := JobStatus.processing, startedAt := some now })).updateJob
      jobId (fun j => { j with progress := { j.progress with nova := some .processing } })).updateJob
      jobId (fun j => { j with progress := { j.progress with nova := some .completed } })).updateJob
      jobId (fun j => { j with progress := { j.progress with flux := some .processing } })).updateJob
      jobId (fun j => { j with status := JobStatus.failed,
                               error := some { code := "pipeline_error", message := m, retryable := true },
                               completedAt := some now })).findJob jobId
      = some { j0 with status := JobStatus.failed, startedAt := some now,
                       completedAt := some now,
                       error := some { code := "pipeline_error", message := m, retryable := true },
                       progress := { j0.progress with nova := some JobStatus.completed,
                                                      flux := some JobStatus.processing } } := by
    rw [findJob_updateJob _ jobId
      (fun j => { j with status := JobStatus.failed,
                         error := some { code := "pipeline_error", message := m, retryable := true },
                         completedAt := some now })
      (fun j => rfl), hj4]
    rfl
  rw [hj5]
  dsimp only
  rw [if_pos hCharged]
  have hjobsR := refund_tokens_jobs ((((((db.updateJob jobId
      (fun j => { j with status := JobStatus.processing, startedAt := some now })).updateJob
      jobId (fun j => { j with progress := { j.progress with nova := some .processing } })).updateJob
      jobId (fun j => { j with progress := { j.progress with nova := some .completed } })).updateJob
      jobId (fun j => { j with progress := { j.progress with flux := some .processing } })).updateJob
      jobId (fun j => { j with status := JobStatus.failed,
                               error := some { code := "pipeline_error", message := m, retryable := true },
                               completedAt := some now }))) userId j0.cost.charged "job_failed" jobId
  have hjR : ((refund_tokens ((((((db.updateJob jobId
      (fun j => { j with status := JobStatus.processing, startedAt := some now })).updateJob
      jobId (fun j => { j with progress := { j.progress with nova := some .processing } })).updateJob
      jobId (fun j => { j with progress := { j.progress with nova := some .completed } })).updateJob
      jobId (fun j => { j with progress := { j.progress with flux := some .processing } })).updateJob
      jobId (fun j => { j with status := JobStatus.failed,
                               error := some { code := "pipeline_error", message := m, retryable := true },
                               completedAt := some now }))) userId j0.cost.charged "job_failed"
      jobId).1).findJob jobId
      = some { j0 with status := JobStatus.failed, startedAt := some now,
                       completedAt := some now,
                       error := some { code := "pipeline_error", message := m, retryable := true },
                       progress := { j0.progress with nova := some JobStatus.completed,
                                                      flux := some JobStatus.processing } } := by
    rw [findJob_eq_of_jobs_eq _ _ _ hjobsR]
    exact hj5
  have hfin : ((refund_tokens ((((((db.updateJob jobId
      (fun j => { j with status := JobStatus.processing, startedAt := some now })).updateJob
      jobId (fun j => { j with progress := { j.progress with nova := some .processing } })).updateJob
      jobId (fun j => { j with progress := { j.progress with nova := some .completed } })).updateJob
      jobId (fun j => { j with progress := { j.progress with flux := some .processing } })).updateJob
      jobId (fun j => { j with status := JobStatus.failed,
                               error := some { code := "pipeline_error", message := m, retryable := true },
                               completedAt := some now }))) userId j0.cost.charged "job_failed"
      jobId).1.updateJob jobId
      (fun j => { j with cost := { j.cost with refunded := j0.cost.charged } })).findJob jobId
      = some { j0 with status := JobStatus.failed, startedAt := some now,
                       completedAt := some now,
                       error := some { code := "pipeline_error", message := m, retryable := true },
                       progress := { j0.progress with nova := some JobStatus.completed,
                                                      flux := some JobStatus.processing },
                       cost := { j0.cost with refunded := j0.cost.charged } } := by
    rw [findJob_updateJob _ jobId
      (fun j => { j with cost := { j.cost with refunded := j0.cost.charged } })
      (fun j => rfl), hjR]
    rfl
  by_cases hw : j0.webhookUrl.isSome
  · rw [if_pos hw]
    exact ⟨_, hfin, rfl, rfl, rfl, by simp, rfl, rfl⟩
  · rw [if_neg hw]
    exact ⟨_, hfin, rfl, rfl, rfl, by simp, rfl, rfl⟩

/-- C5 witness: the concrete flux-fails run on alice's two-stage job,
charged 3. -/
theorem C5_stage_b_failure_witness :
    ∃ j', (trigger_pipeline dbWithJob envFluxFails "job1" "https://img/a.png"
        [Operation.nova, Operation.flux] "alice" 50).1.findJob "job1" = some j'
      ∧ j'.status = JobStatus.failed
      ∧ j'.progress.nova = some JobStatus.completed
      ∧ j'.progress.flux = some JobStatus.processing
      ∧ j'.progress.flux ≠ some JobStatus.completed
      ∧ j'.cost.charged = jobPending.cost.charged
      ∧ j'.cost.refunded = jobPending.cost.charged :=
  C5_stage_b_failure dbWithJob envFluxFails "job1" "https://img/a.png" "alice"
    [Operation.nova, Operation.flux] 50 jobPending "gc-meta" "upstream 500" (by rfl)
    (by decide) (by decide) rfl rfl (by decide)

theorem KeysRel_refl (db : DB) : KeysRel db db :=
  ⟨id, (List.map_id db.jobs).symm, fun x => ⟨rfl, rfl, rfl⟩⟩

theorem KeysRel_trans (db1 db2 db3 : DB) (h1 : KeysRel db1 db2) (h2 : KeysRel db2 db3) :
    KeysRel db1 db3 := by
  obtain ⟨g1, hj1, hk1⟩ := h1
  obtain ⟨g2, hj2, hk2⟩ := h2
  refine ⟨g2 ∘ g1, ?_, ?_⟩
  · rw [hj2, hj1, List.map_map]
  · intro x
    exact ⟨((hk2 (g1 x)).1).trans (hk1 x).1, ((hk2 (g1 x)).2.1).trans (hk1 x).2.1,
      ((hk2 (g1 x)).2.2).trans (hk1 x).2.2⟩

theorem StageRel_to_KeysRel (db db' : DB) (h : StageRel db db') : KeysRel db db' := by
  obtain ⟨_, _, g, hj, hk⟩ := h
  exact ⟨g, hj, fun x => ⟨(hk x).1, (hk x).2.1, (hk x).2.2.1⟩⟩

theorem KeysRel_updateJob (db : DB) (id : String) (f : JobDoc → JobDoc)
    (hf : ∀ j, (f j).jobId = j.jobId ∧ (f j).userId = j.userId ∧ (f j).requestId = j.requestId) :
    KeysRel db (db.updateJob id f) := by
  refine ⟨fun j => if j.jobId == id then f j else j, rfl, ?_⟩
  intro j
  dsimp only
  by_cases h : j.jobId == id
  · rw [if_pos h]
    exact hf j
  · rw [if_neg h]
    exact ⟨rfl, rfl, rfl⟩

theorem KeysRel_of_jobs_eq (db db' : DB) (h : db'.jobs = db.jobs) : KeysRel db db' :=
  ⟨id, by rw [h, List.map_id], fun x => ⟨rfl, rfl, rfl⟩⟩

/-- Refunds append only `refund`-type records, so the deduction count of
every account's audit trail is unchanged. -/
theorem refund_tokens_deductionCount (db : DB) (u : String) (a : Int) (r j : String)
    (uid : String) :
    deductionCount ((refund_tokens db u a r j).1.txs uid) = deductionCount (db.txs uid) := by
  unfold refund_tokens
  cases hu : db.users u with
  | none => rfl
  | some w =>
    dsimp only
    unfold DB.setUser DB.appendTx
    dsimp only
    by_cases hk : uid = u
    · rw [if_pos hk]
      simp [deductionCount, List.filter_append]
    · rw [if_neg hk]

/-- The pipeline run preserves every job's id, owner and idempotency key,
and appends no deduction transaction for any account. -/
theorem trigger_pipeline_effects (db : DB) (env : PipelineEnv)
    (jobId imageUrl userId : String) (operations : List Operation) (now : Nat) :
    KeysRel db (trigger_pipeline db env jobId imageUrl operations userId now).1
    ∧ ∀ uid,
        deductionCount ((trigger_pipeline db env jobId imageUrl operations userId now).1.txs uid)
          = deductionCount (db.txs uid) := by
  simp only [trigger_pipeline]
  rcases hrn : runNova (db.updateJob jobId
      (fun j => { j with status := JobStatus.processing, startedAt := some now }))
      env jobId imageUrl operations with ⟨db2, calls2, r2⟩
  have hrel0 : KeysRel db (db.updateJob jobId
      (fun j => { j with status := JobStatus.processing, startedAt := some now })) := by
    apply KeysRel_updateJob
    intro j
    exact ⟨rfl, rfl, rfl⟩
  have hrelS : StageRel (db.updateJob jobId
      (fun j => { j with status := JobStatus.processing, startedAt := some now })) db2 := by
    have := runNova_rel (db.updateJob jobId
      (fun j => { j with status := JobStatus.processing, startedAt := some now }))
      env jobId imageUrl operations
    rw [hrn] at this
    exact this
  have hrel2 : KeysRel db db2 :=
    KeysRel_trans _ _ _ hrel0 (StageRel_to_KeysRel _ _ hrelS)
  have htxs2 : db2.txs = db.txs := hrelS.2.1
  cases r2 with
  | ok results =>
    dsimp only
    have hrel3 : KeysRel db (db2.updateJob jobId
        (fun j => { j with status := JobStatus.completed, results := some results,
                           completedAt := some now })) := by
      refine KeysRel_trans _ _ _ hrel2 (KeysRel_updateJob _ _ _ ?_)
      intro j
      exact ⟨rfl, rfl, rfl⟩
    cases hjd : (db2.updateJob jobId
        (fun j => { j with status := JobStatus.completed, results := some results,
                           completedAt := some now })).findJob jobId with
    | none =>
      exact ⟨hrel3, fun uid => by rw [show (db2.updateJob jobId
        (fun j => { j with status := JobStatus.completed, results := some results,
                           completedAt := some now })).txs = db2.txs from rfl, htxs2]⟩
    | some jd =>
      dsimp only
      by_cases hw : jd.webhookUrl.isSome
      · rw [if_pos hw]
        exact ⟨hrel3, fun uid => by rw [show (db2.updateJob jobId
          (fun j => { j with status := JobStatus.completed, results := some results,
                             completedAt := some now })).txs = db2.txs from rfl, htxs2]⟩
      · rw [if_neg hw]
        exact ⟨hrel3, fun uid => by rw [show (db2.updateJob jobId
          (fun j => { j with status := JobStatus.completed, results := some results,
                             completedAt := some now })).txs = db2.txs from rfl, htxs2]⟩
  | error msg =>
    dsimp only
    have hrel3 : KeysRel db (db2.updateJob jobId
        (fun j => { j with status := JobStatus.failed,
                           error := some { code := "pipeline_error", message := msg,
                                           retryable := true },
                           completedAt := some now })) := by
      refine KeysRel_trans _ _ _ hrel2 (KeysRel_updateJob _ _ _ ?_)
      intro j
      exact ⟨rfl, rfl, rfl⟩
    have htxs3 : (db2.updateJob jobId
        (fun j => { j with status := JobStatus.failed,
                           error := some { code := "pipeline_error", message := msg,
                                           retryable := true },
                           completedAt := some now })).txs = db.txs := htxs2
    cases hjd : (db2.updateJob jobId
        (fun j => { j with status := JobStatus.failed,
                           error := some { code := "pipeline_error", message := msg,
                                           retryable := true },
                           completedAt := some now })).findJob jobId with
    | none =>
      exact ⟨hrel3, fun uid => by rw [show (db2.updateJob jobId
        (fun j => { j with status := JobStatus.failed,
                           error := some { code := "pipeline_error", message := msg,
                                           retryable := true },
                           completedAt := some now })).txs = db2.txs from rfl, htxs2]⟩
    | some jd =>
      dsimp only
      by_cases hc : jd.cost.charged > 0
      · rw [if_pos hc]
        have hrel4 : KeysRel db ((refund_tokens (db2.updateJob jobId
            (fun j => { j with status := JobStatus.failed,
                               error := some { code := "pipeline_error", message := msg,
                                               retryable := true },
                               completedAt := some now })) userId jd.cost.charged "job_failed"
            jobId).1.updateJob jobId
            (fun j => { j with cost := { j.cost with refunded := jd.cost.charged } })) := by
          refine KeysRel_trans _ _ _ (KeysRel_trans _ _ _ hrel3 (KeysRel_of_jobs_eq _ _
            (refund_tokens_jobs _ userId jd.cost.charged "job_failed" jobId)))
            (KeysRel_updateJob _ _ _ ?_)
          intro j
          exact ⟨rfl, rfl, rfl⟩
        have hded4 : ∀ uid, deductionCount (((refund_tokens (db2.updateJob jobId
            (fun j => { j with status := JobStatus.failed,
                               error := some { code := "pipeline_error", message := msg,
                                               retryable := true },
                               completedAt := some now })) userId jd.cost.charged "job_failed"
            jobId).1.updateJob jobId
            (fun j => { j with cost := { j.cost with refunded := jd.cost.charged } })).txs uid)
            = deductionCount (db.txs uid) := by
          intro uid
          have h1 := refund_tokens_deductionCount (db2.updateJob jobId
            (fun j => { j with status := JobStatus.failed,
                               error := some { code := "pipeline_error", message := msg,
                                               retryable := true },
                               completedAt := some now })) userId jd.cost.charged "job_failed"
            jobId uid
          rw [show (((refund_tokens (db2.updateJob jobId
            (fun j => { j with status := JobStatus.failed,
                               error := some { code := "pipeline_error", message := msg,
                                               retryable := true },
                               completedAt := some now })) userId jd.cost.charged "job_failed"
            jobId).1.updateJob jobId
            (fun j => { j with cost := { j.cost with refunded := jd.cost.charged } })).txs uid)
            = ((refund_tokens (db2.updateJob jobId
            (fun j => { j with status := JobStatus.failed,
                               error := some { code := "pipeline_error", message := msg,
                                               retryable := true },
                               completedAt := some now })) userId jd.cost.charged "job_failed"
            jobId).1.txs uid) from rfl, h1]
          rw [show (db2.updateJob jobId
            (fun j => { j with status := JobStatus.failed,
                               error := some { code := "pipeline_error", message := msg,
                                               retryable := true },
                               completedAt := some now })).txs = db2.txs from rfl, htxs2]
        by_cases hw : jd.webhookUrl.isSome
        · rw [if_pos hw]
          exact ⟨hrel4, hded4⟩
        · rw [if_neg hw]
          exact ⟨hrel4, hded4⟩
      · rw [if_neg hc]
        by_cases hw : jd.webhookUrl.isSome
        · rw [if_pos hw]
          exact ⟨hrel3, fun uid => by rw [show (db2.updateJob jobId
            (fun j => { j with status := JobStatus.failed,
                               error := some { code := "pipeline_error", message := msg,
                                               retryable := true },
                               completedAt := some now })).txs = db2.txs from rfl, htxs2]⟩
        · rw [if_neg hw]
          exact ⟨hrel3, fun uid => by rw [show (db2.updateJob jobId
            (fun j => { j with status := JobStatus.failed,
                               error := some { code := "pipeline_error", message := msg,
                                               retryable := true },
                               completedAt := some now })).txs = db2.txs from rfl, htxs2]⟩

/-- Appending a deduction record bumps the deduction count by one. -/
theorem deductionCount_append_deduction (l : List TxRecord) (t : TxRecord)
    (h : t.type = TxType.deduction) :
    deductionCount (l ++ [t]) = deductionCount l + 1 := by
  simp [deductionCount, List.filter_append, h]

/-- C2: two create calls with the same `(account, idempotency_key)` produce
exactly one token deduction and return the same job id: the first call
(fresh key, fresh job id, sufficient balance) deducts once, persists the
job and runs the pipeline; the second call — with arbitrary other
arguments — returns the stored job's id with the state unchanged and an
empty effect log (no deduction, no insertion, no pipeline call). -/
theorem C2_idempotent_replay (db : DB) (env env2 : PipelineEnv)
    (userId apiKeyId apiKeyId2 imageUrl imageUrl2 : String)
    (operations operations2 : List Operation)
    (options options2 : Option OperationOptions)
    (webhookUrl webhookUrl2 : Option String)
    (rid newJobId newJobId2 : String) (now now2 : Nat) (u : UserDoc)
    (hFresh : idempotencyLookup db userId (some rid) = none)
    (hNewId : db.findJob newJobId = none)
    (hUser : db.users userId = some u)
    (hBal : ¬ ((if u.balance = 0 then u.creditsAvailable else u.balance)
             < (calculate_cost operations options).1)) :
    ∃ db1 log1 resp1 resp2,
      create_job db env userId apiKeyId imageUrl operations options webhookUrl (some rid)
          newJobId now = (db1, log1, .ok resp1)
      ∧ resp1.jobId = newJobId
      ∧ deductionCount (db1.txs userId) = deductionCount (db.txs userId) + 1
      ∧ create_job db1 env2 userId apiKeyId2 imageUrl2 operations2 options2 webhookUrl2
          (some rid) newJobId2 now2 = (db1, {}, .ok resp2)
      ∧ resp2.jobId = resp1.jobId := by
  have hNewId2 : db.jobs.find? (fun j => j.jobId == newJobId) = none := hNewId
  have hFresh2 : db.jobs.find? (fun j => j.userId == userId && j.requestId == some rid)
      = none := hFresh
  have hded := deduct_tokens_ok db userId (calculate_cost operations options).1 "api_job" newJobId u hUser hBal
  have hsetJob : DB.setJob ((db.setUser userId { u with balance := (if u.balance = 0 then u.creditsAvailable else u.balance) - (calculate_cost operations options).1, totalSpent := u.totalSpent + (calculate_cost operations options).1 }).appendTx userId { type := .deduction, amount := (calculate_cost operations options).1, reason := "api_job", jobId := newJobId, balanceAfter := (if u.balance = 0 then u.creditsAvailable else u.balance) - (calculate_cost operations options).1 }) ({ jobId := newJobId, userId := userId, apiKeyId := apiKeyId, requestId := some rid, status := JobStatus.pending, imageUrl := imageUrl, operations := operations, webhookUrl := webhookUrl, cost := { estimated := (calculate_cost operations options).1, charged := (calculate_cost operations options).1, refunded := 0 }, progress := { nova := if Operation.nova ∈ operations then some JobStatus.pending else none, flux := if Operation.flux ∈ operations then some JobStatus.pending else none, atlas := if Operation.atlas ∈ operations then some JobStatus.pending else none }, createdAt := now } : JobDoc) = { ((db.setUser userId { u with balance := (if u.balance = 0 then u.creditsAvailable else u.balance) - (calculate_cost operations options).1, totalSpent := u.totalSpent + (calculate_cost operations options).1 }).appendTx userId { type := .deduction, amount := (calculate_cost operations options).1, reason := "api_job", jobId := newJobId, balanceAfter := (if u.balance = 0 then u.creditsAvailable else u.balance) - (calculate_cost operations options).1 }) with jobs := ((db.setUser userId { u with balance := (if u.balance = 0 then u.creditsAvailable else u.balance) - (calculate_cost operations options).1, totalSpent := u.totalSpent + (calculate_cost operations options).1 }).appendTx userId { type := .deduction, amount := (calculate_cost operations options).1, reason := "api_job", jobId := newJobId, balanceAfter := (if u.balance = 0 then u.creditsAvailable else u.balance) - (calculate_cost operations options).1 }).jobs ++ [({ jobId := newJobId, userId := userId, apiKeyId := apiKeyId, requestId := some rid, status := JobStatus.pending, imageUrl := imageUrl, operations := operations, webhookUrl := webhookUrl, cost := { estimated := (calculate_cost operations options).1, charged := (calculate_cost operations options).1, refunded := 0 }, progress := { nova := if Operation.nova ∈ operations then some JobStatus.pending else none, flux := if Operation.flux ∈ operations then some JobStatus.pending else none, atlas := if Operation.atlas ∈ operations then some JobStatus.pending else none }, createdAt := now } : JobDoc)] } := by
    unfold DB.setJob
    rw [show (((db.setUser userId { u with balance := (if u.balance = 0 then u.creditsAvailable else u.balance) - (calculate_cost operations options).1, totalSpent := u.totalSpent + (calculate_cost operations options).1 }).appendTx userId { type := .deduction, amount := (calculate_cost operations options).1, reason := "api_job", jobId := newJobId, balanceAfter := (if u.balance = 0 then u.creditsAvailable else u.balance) - (calculate_cost operations options).1 })).jobs.find? (fun j => j.jobId == ({ jobId := newJobId, userId := userId, apiKeyId := apiKeyId, requestId := some rid, status := JobStatus.pending, imageUrl := imageUrl, operations := operations, webhookUrl := webhookUrl, cost := { estimated := (calculate_cost operations options).1, charged := (calculate_cost operations options).1, refunded := 0 }, progress := { nova := if Operation.nova ∈ operations then some JobStatus.pending else none, flux := if Operation.flux ∈ operations then some JobStatus.pending else none, atlas := if Operation.atlas ∈ operations then some JobStatus.pending else none }, createdAt := now } : JobDoc).jobId) = none from hNewId2]
    rfl
  have hcall1 : create_job db env userId apiKeyId imageUrl operations options webhookUrl
      (some rid) newJobId now
      = ((trigger_pipeline { ((db.setUser userId { u with balance := (if u.balance = 0 then u.creditsAvailable else u.balance) - (calculate_cost operations options).1, totalSpent := u.totalSpent + (calculate_cost operations options).1 }).appendTx userId { type := .deduction, amount := (calculate_cost operations options).1, reason := "api_job", jobId := newJobId, balanceAfter := (if u.balance = 0 then u.creditsAvailable else u.balance) - (calculate_cost operations options).1 }) with jobs := ((db.setUser userId { u with balance := (if u.balance = 0 then u.creditsAvailable else u.balance) - (calculate_cost operations options).1, totalSpent := u.totalSpent + (calculate_cost operations options).1 }).appendTx userId { type := .deduction, amount := (calculate_cost operations options).1, reason := "api_job", jobId := newJobId, balanceAfter := (if u.balance = 0 then u.creditsAvailable else u.balance) - (calculate_cost operations options).1 }).jobs ++ [({ jobId := newJobId, userId := userId, apiKeyId := apiKeyId, requestId := some rid, status := JobStatus.pending, imageUrl := imageUrl, operations := operations, webhookUrl := webhookUrl, cost := { estimated := (calculate_cost operations options).1, charged := (calculate_cost operations options).1, refunded := 0 }, progress := { nova := if Operation.nova ∈ operations then some JobStatus.pending else none, flux := if Operation.flux ∈ operations then some JobStatus.pending else none, atlas := if Operation.atlas ∈ operations then some JobStatus.pending else none }, createdAt := now } : JobDoc)] } env newJobId imageUrl operations userId now).1, (trigger_pipeline { ((db.setUser userId { u with balance := (if u.balance = 0 then u.creditsAvailable else u.balance) - (calculate_cost operations options).1, totalSpent := u.totalSpent + (calculate_cost operations options).1 }).appendTx userId { type := .deduction, amount := (calculate_cost operations options).1, reason := "api_job", jobId := newJobId, balanceAfter := (if u.balance = 0 then u.creditsAvailable else u.balance) - (calculate_cost operations options).1 }) with jobs := ((db.setUser userId { u with balance := (if u.balance = 0 then u.creditsAvailable else u.balance) - (calculate_cost operations options).1, totalSpent := u.totalSpent + (calculate_cost operations options).1 }).appendTx userId { type := .deduction, amount := (calculate_cost operations options).1, reason := "api_job", jobId := newJobId, balanceAfter := (if u.balance = 0 then u.creditsAvailable else u.balance) - (calculate_cost operations options).1 }).jobs ++ [({ jobId := newJobId, userId := userId, apiKeyId := apiKeyId, requestId := some rid, status := JobStatus.pending, imageUrl := imageUrl, operations := operations, webhookUrl := webhookUrl, cost := { estimated := (calculate_cost operations options).1, charged := (calculate_cost operations options).1, refunded := 0 }, progress := { nova := if Operation.nova ∈ operations then some JobStatus.pending else none, flux := if Operation.flux ∈ operations then some JobStatus.pending else none, atlas := if Operation.atlas ∈ operations then some JobStatus.pending else none }, createdAt := now } : JobDoc)] } env newJobId imageUrl operations userId now).2, .ok { jobId := newJobId, status := JobStatus.pending, operations := operations, cost := [("estimated_aet", (calculate_cost operations options).1)] }) := by
    simp only [create_job, hFresh, hded, hsetJob]
  obtain ⟨⟨g, hjobs, hkeys⟩, hded2⟩ :=
    trigger_pipeline_effects { ((db.setUser userId { u with balance := (if u.balance = 0 then u.creditsAvailable else u.balance) - (calculate_cost operations options).1, totalSpent := u.totalSpent + (calculate_cost operations options).1 }).appendTx userId { type := .deduction, amount := (calculate_cost operations options).1, reason := "api_job", jobId := newJobId, balanceAfter := (if u.balance = 0 then u.creditsAvailable else u.balance) - (calculate_cost operations options).1 }) with jobs := ((db.setUser userId { u with balance := (if u.balance = 0 then u.creditsAvailable else u.balance) - (calculate_cost operations options).1, totalSpent := u.totalSpent + (calculate_cost operations options).1 }).appendTx userId { type := .deduction, amount := (calculate_cost operations options).1, reason := "api_job", jobId := newJobId, balanceAfter := (if u.balance = 0 then u.creditsAvailable else u.balance) - (calculate_cost operations options).1 }).jobs ++ [({ jobId := newJobId, userId := userId, apiKeyId := apiKeyId, requestId := some rid, status := JobStatus.pending, imageUrl := imageUrl, operations := operations, webhookUrl := webhookUrl, cost := { estimated := (calculate_cost operations options).1, charged := (calculate_cost operations options).1, refunded := 0 }, progress := { nova := if Operation.nova ∈ operations then some JobStatus.pending else none, flux := if Operation.flux ∈ operations then some JobStatus.pending else none, atlas := if Operation.atlas ∈ operations then some JobStatus.pending else none }, createdAt := now } : JobDoc)] } env newJobId imageUrl userId operations now
  have htxsB : ({ ((db.setUser userId { u with balance := (if u.balance = 0 then u.creditsAvailable else u.balance) - (calculate_cost operations options).1, totalSpent := u.totalSpent + (calculate_cost operations options).1 }).appendTx userId { type := .deduction, amount := (calculate_cost operations options).1, reason := "api_job", jobId := newJobId, balanceAfter := (if u.balance = 0 then u.creditsAvailable else u.balance) - (calculate_cost operations options).1 }) with jobs := ((db.setUser userId { u with balance := (if u.balance = 0 then u.creditsAvailable else u.balance) - (calculate_cost operations options).1, totalSpent := u.totalSpent + (calculate_cost operations options).1 }).appendTx userId { type := .deduction, amount := (calculate_cost operations options).1, reason := "api_job", jobId := newJobId, balanceAfter := (if u.balance = 0 then u.creditsAvailable else u.balance) - (calculate_cost operations options).1 }).jobs ++ [({ jobId := newJobId, userId := userId, apiKeyId := apiKeyId, requestId := some rid, status := JobStatus.pending, imageUrl := imageUrl, operations := operations, webhookUrl := webhookUrl, cost := { estimated := (calculate_cost operations options).1, charged := (calculate_cost operations options).1, refunded := 0 }, progress := { nova := if Operation.nova ∈ operations then some JobStatus.pending else none, flux := if Operation.flux ∈ operations then some JobStatus.pending else none, atlas := if Operation.atlas ∈ operations then some JobStatus.pending else none }, createdAt := now } : JobDoc)] }).txs userId
      = db.txs userId ++ [({ type := .deduction, amount := (calculate_cost operations options).1, reason := "api_job", jobId := newJobId, balanceAfter := (if u.balance = 0 then u.creditsAvailable else u.balance) - (calculate_cost operations options).1 } : TxRecord)] := by
    show (((db.setUser userId { u with balance := (if u.balance = 0 then u.creditsAvailable else u.balance) - (calculate_cost operations options).1, totalSpent := u.totalSpent + (calculate_cost operations options).1 }).appendTx userId { type := .deduction, amount := (calculate_cost operations options).1, reason := "api_job", jobId := newJobId, balanceAfter := (if u.balance = 0 then u.creditsAvailable else u.balance) - (calculate_cost operations options).1 })).txs userId = _
    dsimp only [DB.setUser, DB.appendTx]
    rw [if_pos rfl]
  have hcount : deductionCount ((trigger_pipeline { ((db.setUser userId { u with balance := (if u.balance = 0 then u.creditsAvailable else u.balance) - (calculate_cost operations options).1, totalSpent := u.totalSpent + (calculate_cost operations options).1 }).appendTx userId { type := .deduction, amount := (calculate_cost operations options).1, reason := "api_job", jobId := newJobId, balanceAfter := (if u.balance = 0 then u.creditsAvailable else u.balance) - (calculate_cost operations options).1 }) with jobs := ((db.setUser userId { u with balance := (if u.balance = 0 then u.creditsAvailable else u.balance) - (calculate_cost operations options).1, totalSpent := u.totalSpent + (calculate_cost operations options).1 }).appendTx userId { type := .deduction, amount := (calculate_cost operations options).1, reason := "api_job", jobId := newJobId, balanceAfter := (if u.balance = 0 then u.creditsAvailable else u.balance) - (calculate_cost operations options).1 }).jobs ++ [({ jobId := newJobId, userId := userId, apiKeyId := apiKeyId, requestId := some rid, status := JobStatus.pending, imageUrl := imageUrl, operations := operations, webhookUrl := webhookUrl, cost := { estimated := (calculate_cost operations options).1, charged := (calculate_cost operations options).1, refunded := 0 }, progress := { nova := if Operation.nova ∈ operations then some JobStatus.pending else none, flux := if Operation.flux ∈ operations then some JobStatus.pending else none, atlas := if Operation.atlas ∈ operations then some JobStatus.pending else none }, createdAt := now } : JobDoc)] } env newJobId imageUrl operations userId now).1.txs userId)
      = deductionCount (db.txs userId) + 1 := by
    rw [hded2 userId, htxsB, deductionCount_append_deduction _ _ rfl]
  have hlook : idempotencyLookup ((trigger_pipeline { ((db.setUser userId { u with balance := (if u.balance = 0 then u.creditsAvailable else u.balance) - (calculate_cost operations options).1, totalSpent := u.totalSpent + (calculate_cost operations options).1 }).appendTx userId { type := .deduction, amount := (calculate_cost operations options).1, reason := "api_job", jobId := newJobId, balanceAfter := (if u.balance = 0 then u.creditsAvailable else u.balance) - (calculate_cost operations options).1 }) with jobs := ((db.setUser userId { u with balance := (if u.balance = 0 then u.creditsAvailable else u.balance) - (calculate_cost operations options).1, totalSpent := u.totalSpent + (calculate_cost operations options).1 }).appendTx userId { type := .deduction, amount := (calculate_cost operations options).1, reason := "api_job", jobId := newJobId, balanceAfter := (if u.balance = 0 then u.creditsAvailable else u.balance) - (calculate_cost operations options).1 }).jobs ++ [({ jobId := newJobId, userId := userId, apiKeyId := apiKeyId, requestId := some rid, status := JobStatus.pending, imageUrl := imageUrl, operations := operations, webhookUrl := webhookUrl, cost := { estimated := (calculate_cost operations options).1, charged := (calculate_cost operations options).1, refunded := 0 }, progress := { nova := if Operation.nova ∈ operations then some JobStatus.pending else none, flux := if Operation.flux ∈ operations then some JobStatus.pending else none, atlas := if Operation.atlas ∈ operations then some JobStatus.pending else none }, createdAt := now } : JobDoc)] } env newJobId imageUrl operations userId now).1) userId (some rid)
      = some (g ({ jobId := newJobId, userId := userId, apiKeyId := apiKeyId, requestId := some rid, status := JobStatus.pending, imageUrl := imageUrl, operations := operations, webhookUrl := webhookUrl, cost := { estimated := (calculate_cost operations options).1, charged := (calculate_cost operations options).1, refunded := 0 }, progress := { nova := if Operation.nova ∈ operations then some JobStatus.pending else none, flux := if Operation.flux ∈ operations then some JobStatus.pending else none, atlas := if Operation.atlas ∈ operations then some JobStatus.pending else none }, createdAt := now } : JobDoc)) := by
    unfold idempotencyLookup
    dsimp only
    rw [hjobs]
    rw [List.find?_map]
    have hp : ((fun j => j.userId == userId && j.requestId == some rid) ∘ g)
        = (fun j : JobDoc => j.userId == userId && j.requestId == some rid) := by
      funext x
      simp only [Function.comp_apply, (hkeys x).2.1, (hkeys x).2.2]
    rw [hp]
    show ((db.jobs ++ [({ jobId := newJobId, userId := userId, apiKeyId := apiKeyId, requestId := some rid, status := JobStatus.pending, imageUrl := imageUrl, operations := operations, webhookUrl := webhookUrl, cost := { estimated := (calculate_cost operations options).1, charged := (calculate_cost operations options).1, refunded := 0 }, progress := { nova := if Operation.nova ∈ operations then some JobStatus.pending else none, flux := if Operation.flux ∈ operations then some JobStatus.pending else none, atlas := if Operation.atlas ∈ operations then some JobStatus.pending else none }, createdAt := now } : JobDoc)]).find? (fun j => j.userId == userId && j.requestId == some rid)).map g = _
    rw [List.find?_append, hFresh2]
    simp
  have hcall2 : create_job ((trigger_pipeline { ((db.setUser userId { u with balance := (if u.balance = 0 then u.creditsAvailable else u.balance) - (calculate_cost operations options).1, totalSpent := u.totalSpent + (calculate_cost operations options).1 }).appendTx userId { type := .deduction, amount := (calculate_cost operations options).1, reason := "api_job", jobId := newJobId, balanceAfter := (if u.balance = 0 then u.creditsAvailable else u.balance) - (calculate_cost operations options).1 }) with jobs := ((db.setUser userId { u with balance := (if u.balance = 0 then u.creditsAvailable else u.balance) - (calculate_cost operations options).1, totalSpent := u.totalSpent + (calculate_cost operations options).1 }).appendTx userId { type := .deduction, amount := (calculate_cost operations options).1, reason := "api_job", jobId := newJobId, balanceAfter := (if u.balance = 0 then u.creditsAvailable else u.balance) - (calculate_cost operations options).1 }).jobs ++ [({ jobId := newJobId, userId := userId, apiKeyId := apiKeyId, requestId := some rid, status := JobStatus.pending, imageUrl := imageUrl, operations := operations, webhookUrl := webhookUrl, cost := { estimated := (calculate_cost operations options).1, charged := (calculate_cost operations options).1, refunded := 0 }, progress := { nova := if Operation.nova ∈ operations then some JobStatus.pending else none, flux := if Operation.flux ∈ operations then some JobStatus.pending else none, atlas := if Operation.atlas ∈ operations then some JobStatus.pending else none }, createdAt := now } : JobDoc)] } env newJobId imageUrl operations userId now).1) env2 userId apiKeyId2 imageUrl2 operations2 options2
      webhookUrl2 (some rid) newJobId2 now2
      = ((trigger_pipeline { ((db.setUser userId { u with balance := (if u.balance = 0 then u.creditsAvailable else u.balance) - (calculate_cost operations options).1, totalSpent := u.totalSpent + (calculate_cost operations options).1 }).appendTx userId { type := .deduction, amount := (calculate_cost operations options).1, reason := "api_job", jobId := newJobId, balanceAfter := (if u.balance = 0 then u.creditsAvailable else u.balance) - (calculate_cost operations options).1 }) with jobs := ((db.setUser userId { u with balance := (if u.balance = 0 then u.creditsAvailable else u.balance) - (calculate_cost operations options).1, totalSpent := u.totalSpent + (calculate_cost operations options).1 }).appendTx userId { type := .deduction, amount := (calculate_cost operations options).1, reason := "api_job", jobId := newJobId, balanceAfter := (if u.balance = 0 then u.creditsAvailable else u.balance) - (calculate_cost operations options).1 }).jobs ++ [({ jobId := newJobId, userId := userId, apiKeyId := apiKeyId, requestId := some rid, status := JobStatus.pending, imageUrl := imageUrl, operations := operations, webhookUrl := webhookUrl, cost := { estimated := (calculate_cost operations options).1, charged := (calculate_cost operations options).1, refunded := 0 }, progress := { nova := if Operation.nova ∈ operations then some JobStatus.pending else none, flux := if Operation.flux ∈ operations then some JobStatus.pending else none, atlas := if Operation.atlas ∈ operations then some JobStatus.pending else none }, createdAt := now } : JobDoc)] } env newJobId imageUrl operations userId now).1, {}, .ok { jobId := (g ({ jobId := newJobId, userId := userId, apiKeyId := apiKeyId, requestId := some rid, status := JobStatus.pending, imageUrl := imageUrl, operations := operations, webhookUrl := webhookUrl, cost := { estimated := (calculate_cost operations options).1, charged := (calculate_cost operations options).1, refunded := 0 }, progress := { nova := if Operation.nova ∈ operations then some JobStatus.pending else none, flux := if Operation.flux ∈ operations then some JobStatus.pending else none, atlas := if Operation.atlas ∈ operations then some JobStatus.pending else none }, createdAt := now } : JobDoc)).jobId, status := (g ({ jobId := newJobId, userId := userId, apiKeyId := apiKeyId, requestId := some rid, status := JobStatus.pending, imageUrl := imageUrl, operations := operations, webhookUrl := webhookUrl, cost := { estimated := (calculate_cost operations options).1, charged := (calculate_cost operations options).1, refunded := 0 }, progress := { nova := if Operation.nova ∈ operations then some JobStatus.pending else none, flux := if Operation.flux ∈ operations then some JobStatus.pending else none, atlas := if Operation.atlas ∈ operations then some JobStatus.pending else none }, createdAt := now } : JobDoc)).status, operations := (g ({ jobId := newJobId, userId := userId, apiKeyId := apiKeyId, requestId := some rid, status := JobStatus.pending, imageUrl := imageUrl, operations := operations, webhookUrl := webhookUrl, cost := { estimated := (calculate_cost operations options).1, charged := (calculate_cost operations options).1, refunded := 0 }, progress := { nova := if Operation.nova ∈ operations then some JobStatus.pending else none, flux := if Operation.flux ∈ operations then some JobStatus.pending else none, atlas := if Operation.atlas ∈ operations then some JobStatus.pending else none }, createdAt := now } : JobDoc)).operations, cost := [("estimated_aet", (g ({ jobId := newJobId, userId := userId, apiKeyId := apiKeyId, requestId := some rid, status := JobStatus.pending, imageUrl := imageUrl, operations := operations, webhookUrl := webhookUrl, cost := { estimated := (calculate_cost operations options).1, charged := (calculate_cost operations options).1, refunded := 0 }, progress := { nova := if Operation.nova ∈ operations then some JobStatus.pending else none, flux := if Operation.flux ∈ operations then some JobStatus.pending else none, atlas := if Operation.atlas ∈ operations then some JobStatus.pending else none }, createdAt := now } : JobDoc)).cost.estimated)], message := some "Job already created for this request_id" }) := by
    simp only [create_job, hlook]
  refine ⟨(trigger_pipeline { ((db.setUser userId { u with balance := (if u.balance = 0 then u.creditsAvailable else u.balance) - (calculate_cost operations options).1, totalSpent := u.totalSpent + (calculate_cost operations options).1 }).appendTx userId { type := .deduction, amount := (calculate_cost operations options).1, reason := "api_job", jobId := newJobId, balanceAfter := (if u.balance = 0 then u.creditsAvailable else u.balance) - (calculate_cost operations options).1 }) with jobs := ((db.setUser userId { u with balance := (if u.balance = 0 then u.creditsAvailable else u.balance) - (calculate_cost operations options).1, totalSpent := u.totalSpent + (calculate_cost operations options).1 }).appendTx userId { type := .deduction, amount := (calculate_cost operations options).1, reason := "api_job", jobId := newJobId, balanceAfter := (if u.balance = 0 then u.creditsAvailable else u.balance) - (calculate_cost operations options).1 }).jobs ++ [({ jobId := newJobId, userId := userId, apiKeyId := apiKeyId, requestId := some rid, status := JobStatus.pending, imageUrl := imageUrl, operations := operations, webhookUrl := webhookUrl, cost := { estimated := (calculate_cost operations options).1, charged := (calculate_cost operations options).1, refunded := 0 }, progress := { nova := if Operation.nova ∈ operations then some JobStatus.pending else none, flux := if Operation.flux ∈ operations then some JobStatus.pending else none, atlas := if Operation.atlas ∈ operations then some JobStatus.pending else none }, createdAt := now } : JobDoc)] } env newJobId imageUrl operations userId now).1, (trigger_pipeline { ((db.setUser userId { u with balance := (if u.balance = 0 then u.creditsAvailable else u.balance) - (calculate_cost operations options).1, totalSpent := u.totalSpent + (calculate_cost operations options).1 }).appendTx userId { type := .deduction, amount := (calculate_cost operations options).1, reason := "api_job", jobId := newJobId, balanceAfter := (if u.balance = 0 then u.creditsAvailable else u.balance) - (calculate_cost operations options).1 }) with jobs := ((db.setUser userId { u with balance := (if u.balance = 0 then u.creditsAvailable else u.balance) - (calculate_cost operations options).1, totalSpent := u.totalSpent + (calculate_cost operations options).1 }).appendTx userId { type := .deduction, amount := (calculate_cost operations options).1, reason := "api_job", jobId := newJobId, balanceAfter := (if u.balance = 0 then u.creditsAvailable else u.balance) - (calculate_cost operations options).1 }).jobs ++ [({ jobId := newJobId, userId := userId, apiKeyId := apiKeyId, requestId := some rid, status := JobStatus.pending, imageUrl := imageUrl, operations := operations, webhookUrl := webhookUrl, cost := { estimated := (calculate_cost operations options).1, charged := (calculate_cost operations options).1, refunded := 0 }, progress := { nova := if Operation.nova ∈ operations then some JobStatus.pending else none, flux := if Operation.flux ∈ operations then some JobStatus.pending else none, atlas := if Operation.atlas ∈ operations then some JobStatus.pending else none }, createdAt := now } : JobDoc)] } env newJobId imageUrl operations userId now).2, _, _, hcall1, rfl, hcount, hcall2, ?_⟩
  exact (hkeys ({ jobId := newJobId, userId := userId, apiKeyId := apiKeyId, requestId := some rid, status := JobStatus.pending, imageUrl := imageUrl, operations := operations, webhookUrl := webhookUrl, cost := { estimated := (calculate_cost operations options).1, charged := (calculate_cost operations options).1, refunded := 0 }, progress := { nova := if Operation.nova ∈ operations then some JobStatus.pending else none, flux := if Operation.flux ∈ operations then some JobStatus.pending else none, atlas := if Operation.atlas ∈ operations then some JobStatus.pending else none }, createdAt := now } : JobDoc)).1

/-- C2 witness: two concrete creates under idempotency key `r1`; the second
uses different arguments and still returns the first job id with no new
effects. -/
theorem C2_idempotent_replay_witness :
    ∃ db1 log1 resp1 resp2,
      create_job dbAlice envAllOk "alice" "k1" "https://img/a.png" [Operation.atlas] none none
          (some "r1") "jobA" 1 = (db1, log1, .ok resp1)
      ∧ resp1.jobId = "jobA"
      ∧ deductionCount (db1.txs "alice") = deductionCount (dbAlice.txs "alice") + 1
      ∧ create_job db1 envAllOk "alice" "k2" "https://img/b.png" [Operation.nova] none none
          (some "r1") "jobB" 2 = (db1, {}, .ok resp2)
      ∧ resp2.jobId = resp1.jobId :=
  C2_idempotent_replay dbAlice envAllOk envAllOk "alice" "k1" "k2" "https://img/a.png"
    "https://img/b.png" [Operation.atlas] [Operation.nova] none none none none
    "r1" "jobA" "jobB" 1 2 userAlice (by rfl) (by rfl) (by rfl) (by decide)

/-- Decimal digits render to digit characters that are neither `,` nor `=`,
and their value parses back. -/
theorem digitChar_props : ∀ d < 10, isDigitChar (Nat.digitChar d) = true
    ∧ digitVal (Nat.digitChar d) = d
    ∧ Nat.digitChar d ≠ ',' ∧ Nat.digitChar d ≠ '=' := by
  decide

theorem natToChars_ne_nil (n : Nat) : natToChars n ≠ [] := by
  unfold natToChars
  split
  · simp
  · next h =>
    simp [Nat.digits_ne_nil_iff_ne_zero, h]

theorem natToChars_mem (n : Nat) : ∀ c ∈ natToChars n,
    isDigitChar c = true ∧ c ≠ ',' ∧ c ≠ '=' := by
  unfold natToChars
  split
  · intro c hc
    simp at hc
    subst hc
    exact ⟨by decide, by decide, by decide⟩
  · next h =>
    intro c hc
    simp only [List.mem_map, List.mem_reverse] at hc
    obtain ⟨d, hd, rfl⟩ := hc
    have hlt : d < 10 := Nat.digits_lt_base (by norm_num) hd
    exact ⟨(digitChar_props d hlt).1, (digitChar_props d hlt).2.2.1,
      (digitChar_props d hlt).2.2.2⟩

theorem foldl_digitChar (L : List Nat) (hL : ∀ d ∈ L, d < 10) :
    ∀ A : Nat, List.foldl (fun a c => a * 10 + digitVal c) A (L.map Nat.digitChar)
      = List.foldl (fun a d => a * 10 + d) A L := by
  induction L with
  | nil => intro A; rfl
  | cons d T ih =>
    intro A
    have hd : d < 10 := hL d (List.mem_cons_self d T)
    simp only [List.map_cons, List.foldl_cons, (digitChar_props d hd).2.1]
    exact ih (fun x hx => hL x (List.mem_cons_of_mem d hx)) _

theorem foldl_reverse_ofDigits (L : List Nat) :
    ∀ A : Nat, List.foldl (fun a d => a * 10 + d) A L.reverse
      = A * 10 ^ L.length + Nat.ofDigits 10 L := by
  induction L with
  | nil => intro A; simp
  | cons d T ih =>
    intro A
    simp only [List.reverse_cons, List.foldl_append, List.foldl_cons, List.foldl_nil, ih,
      Nat.ofDigits_cons, List.length_cons]
    ring

/-- `int(str(n)) = n` in the model. -/
theorem parseNatChars_natToChars (n : Nat) : parseNatChars (natToChars n) = some n := by
  unfold parseNatChars
  rw [if_pos]
  · congr 1
    unfold natToChars
    split
    · next h => subst h; decide
    · next h =>
      rw [foldl_digitChar ((Nat.digits 10 n).reverse)
        (fun d hd => Nat.digits_lt_base (by norm_num) (List.mem_reverse.mp hd)) 0,
        foldl_reverse_ofDigits (Nat.digits 10 n) 0]
      simp [Nat.ofDigits_digits]
  · refine ⟨natToChars_ne_nil n, ?_⟩
    rw [List.all_eq_true]
    intro c hc
    exact (natToChars_mem n c hc).1

/-- Splitting at the first separator occurrence. -/
theorem splitOnChar_append (c : Char) (a b : List Char) (ha : c ∉ a) :
    splitOnChar c (a ++ c :: b) = a :: splitOnChar c b := by
  induction a with
  | nil =>
    simp [splitOnChar]
  | cons x xs ih =>
    have hx : x ≠ c := fun h => ha (h ▸ List.mem_cons_self x xs)
    have hxs : c ∉ xs := fun h => ha (List.mem_cons_of_mem x h)
    simp only [List.cons_append, splitOnChar, if_neg hx, List.append_eq, ih hxs]

/-- A separator-free string splits to itself. -/
theorem splitOnChar_of_not_mem (c : Char) (b : List Char) (hb : c ∉ b) :
    splitOnChar c b = [b] := by
  induction b with
  | nil => rfl
  | cons x xs ih =>
    have hx : x ≠ c := fun h => hb (h ▸ List.mem_cons_self x xs)
    have hxs : c ∉ xs := fun h => hb (List.mem_cons_of_mem x h)
    simp only [splitOnChar, if_neg hx, ih hxs]

/-- Splitting a key-value piece at its first `=`. -/
theorem splitFirstEq_t (ts : List Char) :
    splitFirstEq ('t' :: '=' :: ts) = some (['t'], ts) := by
  simp [splitFirstEq]

theorem splitFirstEq_v1 (d : List Char) :
    splitFirstEq ('v' :: '1' :: '=' :: d) = some (['v', '1'], d) := by
  simp [splitFirstEq]

/-- Parsing a well-formed generated signature header recovers exactly the
`t` and `v1` entries. -/
theorem parseSigParts_generate (ts d : List Char)
    (hts : ',' ∉ ts) (hd : ',' ∉ d) :
    parseSigParts ('t' :: '=' :: ts ++ ',' :: 'v' :: '1' :: '=' :: d)
      = [(['t'], ts), (['v', '1'], d)] := by
  unfold parseSigParts
  have hsplit : splitOnChar ',' ('t' :: '=' :: ts ++ ',' :: 'v' :: '1' :: '=' :: d)
      = ('t' :: '=' :: ts) :: [('v' :: '1' :: '=' :: d)] := by
    have ha : ',' ∉ 't' :: '=' :: ts := by
      intro h
      rcases List.mem_cons.mp h with h | h
      · cases h
      rcases List.mem_cons.mp h with h | h
      · cases h
      · exact hts h
    have hb : ',' ∉ 'v' :: '1' :: '=' :: d := by
      intro h
      rcases List.mem_cons.mp h with h | h
      · cases h
      rcases List.mem_cons.mp h with h | h
      · cases h
      rcases List.mem_cons.mp h with h | h
      · cases h
      · exact hd h
    rw [show ('t' :: '=' :: ts ++ ',' :: 'v' :: '1' :: '=' :: d)
        = (('t' :: '=' :: ts) ++ ',' :: ('v' :: '1' :: '=' :: d)) from rfl,
      splitOnChar_append _ _ _ ha, splitOnChar_of_not_mem _ _ hb]
  rw [hsplit]
  simp only [List.foldl_cons, List.foldl_nil, splitFirstEq_t, splitFirstEq_v1]
  rfl

theorem lookupPart_generate_t (ts d : List Char) :
    lookupPart ['t'] [(['t'], ts), (['v', '1'], d)] = some ts := by
  simp [lookupPart]

theorem lookupPart_generate_v1 (ts d : List Char) :
    lookupPart ['v', '1'] [(['t'], ts), (['v', '1'], d)] = some d := by
  simp [lookupPart]

/-- Verifying any payload against a generated signature header reduces to
the timestamp age check followed by the digest comparison, provided the
digest is a well-formed hex digest (non-empty, comma-free). -/
theorem verify_generate (mac : List Char → List Char → List Char)
    (payload payload₂ secret : List Char) (now : Nat) (t : Int) (maxAge : Nat)
    (hd_ne : mac secret (signedMessage now payload) ≠ [])
    (hd_comma : ',' ∉ mac secret (signedMessage now payload)) :
    verify_webhook_signature mac payload₂
        (generate_webhook_signature mac payload secret now) secret t maxAge
      = if (t - (now : Int)).natAbs > maxAge then false
        else (mac secret (signedMessage now payload)
              = mac secret (signedMessage now payload₂) : Bool) := by
  unfold generate_webhook_signature verify_webhook_signature
  rw [if_neg (by simp)]
  rw [parseSigParts_generate (natToChars now) (mac secret (signedMessage now payload))
    (fun h => ((natToChars_mem now ',' h).2.1 rfl))
    hd_comma]
  dsimp only
  rw [lookupPart_generate_t, lookupPart_generate_v1]
  dsimp only
  rw [if_neg (by
    rintro (h | h)
    · exact natToChars_ne_nil now h
    · exact hd_ne h)]
  rw [parseNatChars_natToChars]

/-- C9: for every payload and secret (with the HMAC-SHA256 hex digest
abstracted as a deterministic function `mac` whose outputs are non-empty
and comma-free, as hex digests are): (1) a signature generated at time
`now` verifies at current time `now` under the default maximum age 300;
(2) the same signature evaluated at current time `now - 301` is rejected;
(3) against a payload differing in a single byte, verification fails —
given the standard collision-freedom assumption that the two digests
differ, stated as the explicit hypothesis `hcoll`. -/
theorem C9_webhook_signature (mac : List Char → List Char → List Char)
    (payload payload' secret : List Char) (now : Nat)
    (hd_ne : mac secret (signedMessage now payload) ≠ [])
    (hd_comma : ',' ∉ mac secret (signedMessage now payload))
    (i : Nat) (hi : i < payload.length)
    (hlen : payload'.length = payload.length)
    (hbyte : payload'.get? i ≠ payload.get? i)
    (hrest : ∀ j, j ≠ i → payload'.get? j = payload.get? j)
    (hcoll : mac secret (signedMessage now payload')
      ≠ mac secret (signedMessage now payload)) :
    verify_webhook_signature mac payload
        (generate_webhook_signature mac payload secret now) secret (now : Int) 300 = true
    ∧ verify_webhook_signature mac payload
        (generate_webhook_signature mac payload secret now) secret ((now : Int) - 301) 300
        = false
    ∧ verify_webhook_signature mac payload'
        (generate_webhook_signature mac payload secret now) secret (now : Int) 300
        = false := by
  refine ⟨?_, ?_, ?_⟩
  · rw [verify_generate mac payload payload secret now (now : Int) 300 hd_ne hd_comma]
    rw [if_neg (by simp)]
    simp
  · rw [verify_generate mac payload payload secret now ((now : Int) - 301) 300 hd_ne hd_comma]
    rw [if_pos (by
      have : ((now : Int) - 301 - (now : Int)) = -301 := by ring
      rw [this]
      decide)]
  · rw [verify_generate mac payload payload' secret now (now : Int) 300 hd_ne hd_comma]
    rw [if_neg (by simp)]
    simp
    exact fun h => hcoll h.symm

/-- C9 witness: the trivial prefixing digest on payloads `ab` vs `ac`
(differing at byte 1), secret `s`, signed at time 5. -/
theorem C9_webhook_signature_witness :
    verify_webhook_signature (fun _ m => 'h' :: m) ['a', 'b']
        (generate_webhook_signature (fun _ m => 'h' :: m) ['a', 'b'] ['s'] 5) ['s']
        (5 : Int) 300 = true
    ∧ verify_webhook_signature (fun _ m => 'h' :: m) ['a', 'b']
        (generate_webhook_signature (fun _ m => 'h' :: m) ['a', 'b'] ['s'] 5) ['s']
        ((5 : Int) - 301) 300 = false
    ∧ verify_webhook_signature (fun _ m => 'h' :: m) ['a', 'c']
        (generate_webhook_signature (fun _ m => 'h' :: m) ['a', 'b'] ['s'] 5) ['s']
        (5 : Int) 300 = false := by
  refine C9_webhook_signature (fun _ m => 'h' :: m) ['a', 'b'] ['a', 'c'] ['s'] 5
    (by simp) ?_ 1 (by decide) (by decide) (by decide) ?_ ?_
  · intro h
    simp only [signedMessage, List.mem_cons, List.mem_append] at h
    rcases h with h | h
    · cases h
    rcases h with h | h
    · exact (natToChars_mem 5 ',' h).2.1 rfl
    · rcases h with h | h | h | h
      · cases h
      · cases h
      · cases h
      · simp at h
  · intro j hj
    match j, hj with
    | 0, _ => rfl
    | 1, hj => exact absurd rfl hj
    | (n + 2), _ => rfl
  · intro h
    simp only [signedMessage, List.cons.injEq] at h
    exact absurd (List.append_cancel_left h.2) (by decide)

end GoldenCodex
